import Mathlib

/-!
# English Fluency Coach: recording session and analysis orchestrator

A shallow embedding of `src/static/js/app.js` (class `EnglishFluencyCoach`).

The controller is single-threaded and event driven.  Every method is embedded
as a function on an explicit `State`; a method that suspends at an `await` is
split at the suspension point into the part that runs before it and a
`...Resume` function that runs when the awaited promise settles.  The browser
(microphone streams, `MediaRecorder` objects, interval timers, in-flight
`fetch` calls, the page) is part of the state, and `step` dispatches one task
of the event loop.

Conventions:
* `console.log` / `console.error` and `scrollIntoView` have no effect on the state
  and are left out;
* the page is the application page: every element the controller looks up by id
  exists;
* a `Blob` is its bytes, its MIME type is left out;
* `MediaRecorder` is constructed successfully whenever a stream was granted.
-/

namespace EnglishFluencyCoach

/-! ## Values -/

/-- Binary object (`Blob`), represented by its bytes. -/
structure Blob where
  bytes : List Nat
deriving DecidableEq, Repr

/-- Size in bytes, `blob.size`. -/
def Blob.size (b : Blob) : Nat := b.bytes.length

/-- Constructor `new Blob(parts)`: the parts concatenated in order. -/
def Blob.ofParts (parts : List Blob) : Blob := ⟨(parts.map Blob.bytes).flatten⟩

/-- Sign of a JSON number. -/
inductive Sign where
  | neg | zero | pos
deriving DecidableEq, Repr

/-- JavaScript value obtained from a parsed JSON body (or `undefined`, the value
of a missing property).  A number is represented by what the controller
observes of it: the text JavaScript prints for it, and its sign. -/
inductive JsVal where
  | undefined
  | null
  | bool (b : Bool)
  | num (text : String) (sign : Sign)
  | str (s : String)
  | arr (items : List JsVal)
  | obj (fields : List (String × JsVal))
deriving Repr

namespace JsVal

/-- Nullish values: `undefined` and `null`. -/
def isNullish : JsVal → Bool
  | undefined => true
  | null => true
  | _ => false

/-- ToBoolean. -/
def truthy : JsVal → Bool
  | undefined => false
  | null => false
  | bool b => b
  | num _ sg => decide (sg ≠ Sign.zero)
  | str s => decide (s ≠ "")
  | arr _ => true
  | obj _ => true

/-- Operator `a || b`. -/
def or (a b : JsVal) : JsVal := if a.truthy then a else b

/-- Property read `v?.key` for the keys the controller uses (none of them is a
built-in property of strings, numbers, booleans or arrays).  On an object a
repeated key takes its last value, as `JSON.parse` does.  A plain read `v.key`
is this read guarded by a nullish check that throws. -/
def field (v : JsVal) (key : String) : JsVal :=
  match v with
  | obj fields => (fields.reverse.lookup key).getD undefined
  | _ => undefined

/-- Predicate `Array.isArray(v)`. -/
def isArray : JsVal → Bool
  | arr _ => true
  | _ => false

mutual
/-- ToString, as applied by template literals and `textContent`. -/
def toStr : JsVal → String
  | undefined => "undefined"
  | null => "null"
  | bool b => if b then "true" else "false"
  | num t _ => t
  | str s => s
  | arr items => joinWith "," items
  | obj _ => "[object Object]"
termination_by structural v => v
/-- Method `Array.prototype.join(sep)`: nullish elements print as the empty string. -/
def joinWith (sep : String) : List JsVal → String
  | [] => ""
  | v :: rest =>
    (match v with
      | undefined => ""
      | null => ""
      | w => toStr w)
    ++ (match rest with
      | [] => ""
      | _ :: _ => sep)
    ++ joinWith sep rest
termination_by structural l => l
end

/-- Comparison `v > 0` after ToNumber.  Exact for `undefined` (NaN), `null` (0),
booleans and numbers.  Strings, arrays and objects are compared as NaN, which is not
what ToNumber does for a numeric string (`"3" > 0` holds in the code): values whose
`length` field is a string, array or object are outside what this model covers. -/
def gtZero : JsVal → Bool
  | bool b => b
  | num _ sg => decide (sg = Sign.pos)
  | _ => false

/-- Test `v.length > 0` on a non-nullish value. -/
def lengthPositive : JsVal → Bool
  | arr items => !items.isEmpty
  | str s => decide (s ≠ "")
  | obj fields => gtZero (field (obj fields) "length")
  | _ => false

end JsVal

/-- Value written by `element.textContent = v`: nullish values clear the text. -/
def textContentOf (v : JsVal) : String :=
  if v.isNullish then "" else v.toStr

/-- Body of `${...}` items rendered by `items.map(item => <li>item</li>).join('')`. -/
def listItems (items : List JsVal) : String :=
  String.join (items.map (fun item => "<li>" ++ item.toStr ++ "</li>"))

/-! ## Notifications, requests, platform objects -/

/-- Severity passed to `showToast`. -/
inductive ToastType where
  | success | error | warning | info
deriving DecidableEq, Repr

/-- One child of `#toastContainer`. -/
structure Toast where
  message : String
  type : ToastType
deriving DecidableEq, Repr

/-- Request issued with `fetch` (always `POST`). -/
inductive Request where
  /-- Sent to `/analyze_speech`: multipart `audio` (file name `recording.wav`) and `type`. -/
  | analyzeSpeech (audio : Blob) (type : String)
  /-- Sent to `/transcribe_audio`: multipart `audio` (file name `practice.wav`). -/
  | transcribeAudio (audio : Blob)
  /-- Sent to `/get_practice_prompt`: JSON `type`, `topic`, `level`. -/
  | getPracticePrompt (type : Option String) (topic : String) (level : String)
  /-- Sent to `/practice_session`: JSON `type`, `topic`, `input`, `level`. -/
  | practiceSession (type : Option String) (topic : String) (input : String) (level : String)
deriving DecidableEq, Repr

/-- URL of a request. -/
def Request.url : Request → String
  | .analyzeSpeech _ _ => "/analyze_speech"
  | .transcribeAudio _ => "/transcribe_audio"
  | .getPracticePrompt _ _ _ => "/get_practice_prompt"
  | .practiceSession _ _ _ _ => "/practice_session"

/-- The four operations that reach the remote service. -/
inductive Operation where
  | transcribeAndAnalyze | getNewPracticePrompt | transcribePracticeAudio | getCoaching
deriving DecidableEq, Repr

/-- How an awaited `fetch(...)` followed by `response.json()` settles. -/
inductive Response where
  /-- The `fetch` promise rejects. -/
  | rejected
  /-- The call `response.json()` rejects: the body is not JSON. -/
  | unparseable
  /-- The body parses to `result`. -/
  | json (result : JsVal)
deriving Repr

/-- Method awaiting `getUserMedia`. -/
inductive MediaCaller where
  | checkMicrophonePermission | startRecording | startPracticeRecording
deriving DecidableEq, Repr

/-- The `onstop` handler assigned to a recorder. -/
inductive StopHandler where
  | processRecording | processPracticeRecording
deriving DecidableEq, Repr

/-- State of a `MediaRecorder`: `recording` after `start`, `stopping` once `stop()`
has been called and the task that fires the last `dataavailable` and `stop`
events is queued, `inactive` after that task. -/
inductive RecorderState where
  | recording | stopping | inactive
deriving DecidableEq, Repr

/-- A `MediaRecorder` object. -/
structure Recorder where
  stream : Nat
  state : RecorderState
  onstop : StopHandler
deriving DecidableEq, Repr

/-- Which `setInterval` callback an interval runs. -/
inductive Ticker where
  | recording | practice
deriving DecidableEq, Repr

/-- An interval created by `setInterval`; `seconds` is the callback's local counter
(used by the practice ticker only). -/
structure Interval where
  ticker : Ticker
  active : Bool
  seconds : Nat
deriving DecidableEq, Repr

/-- Calls of interest, recorded in order. -/
inductive Call where
  | showLoading (message : String)
  | hideLoading
  | displayTranscription
  | displayAnalysis
  | displayCoaching
  | processRecording
  | processPracticeRecording
deriving DecidableEq, Repr

/-! ## The page and the controller state -/

/-- The part of the document the controller reads and writes.  A `...Hidden` field
is the presence of the CSS class `hidden` on the element of that id. -/
structure Dom where
  activeSection : String
  -- assessment panel
  assessmentTopic : String
  recordingTitle : String
  recordingInstructions : String
  recordingInterfaceHidden : Bool
  recordBtnRecording : Bool
  recordingStatusHidden : Bool
  recordingTimerText : String
  transcriptionText : String
  transcriptionResultHidden : Bool
  retryBtnHidden : Bool
  analysisResultsHidden : Bool
  overallGrade : String
  cefrLevel : String
  levelDescription : String
  pronunciationAnalysis : String
  vocabularyAnalysis : String
  grammarAnalysis : String
  fluencyAnalysis : String
  advancedWords : String
  grammarStrengths : String
  grammarAreas : String
  speakingRate : String
  fillerCount : String
  pronunciationPlan : String
  vocabularyPlan : String
  grammarPlan : String
  fluencyPlan : String
  nextLevelPath : String
  -- practice panel
  practiceLevel : String
  practiceTopic : String
  practiceTitle : String
  sessionType : String
  practiceInterfaceHidden : Bool
  promptText : String
  promptInstructions : String
  practiceRecordBtnStop : Bool
  practiceRecordBtnRecording : Bool
  practiceRecordingStatusHidden : Bool
  practiceTimerText : String
  practiceTranscriptionText : String
  practiceTranscriptionHidden : Bool
  coachingFeedbackHidden : Bool
  immediateFeedback : String
  pronunciationTips : String
  vocabularyTips : String
  fluencyTips : String
  encouragementText : String
  nextChallenge : String
  correctionsList : String
  -- loading overlay
  loadingText : String
  loadingOverlayHidden : Bool
deriving DecidableEq, Repr

/-- Controller fields (`this.*`), the platform objects it created, and the page.

* `streams[i]` tells whether the tracks of the `i`-th stream handed out by
  `getUserMedia` are still live;
* `recorders`, `intervals` are the `MediaRecorder` objects and intervals created so
  far, referred to by position;
* `pendingMedia`, `pendingFetch` are the suspended calls awaiting `getUserMedia`
  and `fetch`;
* `requests` are the requests sent so far, `toasts` the notifications published so
  far (their fade-out and removal after 5 s is presentation and left out), `calls`
  a record of the calls listed in `Call`. -/
structure State where
  mediaRecorder : Option Nat
  audioChunks : List Blob
  isRecording : Bool
  recordingTimer : Option Nat
  recordingStartTime : Option Nat
  currentAssessmentType : Option String
  currentPracticeType : Option String
  practiceTimer : Option Nat
  now : Nat
  streams : List Bool
  recorders : List Recorder
  intervals : List Interval
  pendingMedia : List MediaCaller
  pendingFetch : List Operation
  requests : List Request
  toasts : List Toast
  calls : List Call
  dom : Dom
deriving DecidableEq, Repr

/-- Truthiness of a string-or-null field. -/
def truthyStr : Option String → Bool
  | none => false
  | some s => decide (s ≠ "")

/-! ## Utility functions -/

/-- Method `showLoading(message)`. -/
def showLoading (message : String) (s : State) : State :=
  { s with
    dom := { s.dom with loadingText := message, loadingOverlayHidden := false }
    calls := s.calls ++ [Call.showLoading message] }

/-- Method `hideLoading()`. -/
def hideLoading (s : State) : State :=
  { s with
    dom := { s.dom with loadingOverlayHidden := true }
    calls := s.calls ++ [Call.hideLoading] }

/-- Method `showToast(message, type)`: appends a toast to the container. -/
def showToast (message : String) (type : ToastType) (s : State) : State :=
  { s with toasts := s.toasts ++ [Toast.mk message type] }

/-- Call `clearInterval(id)`. -/
def clearInterval (id : Nat) (intervals : List Interval) : List Interval :=
  match intervals[id]? with
  | some iv => intervals.set id { iv with active := false }
  | none => intervals

/-- Call `recorder.stop()` on the recorder at position `r`: a recording recorder
queues its final task; on any other recorder the call has no effect. -/
def stopRecorder (r : Nat) (recorders : List Recorder) : List Recorder :=
  match recorders[r]? with
  | some rec =>
    if rec.state = RecorderState.recording then
      recorders.set r { rec with state := RecorderState.stopping }
    else recorders
  | none => recorders

/-- Call `recorder.stream.getTracks().forEach(track => track.stop())`. -/
def stopTracks (r : Nat) (recorders : List Recorder) (streams : List Bool) : List Bool :=
  match recorders[r]? with
  | some rec => streams.set rec.stream false
  | none => streams

/-! ## Assessment recording -/

/-- Method `updateRecordingUI(recording)`. -/
def updateRecordingUI (recording : Bool) (s : State) : State :=
  { s with dom := { s.dom with
      recordBtnRecording := recording
      recordingStatusHidden := !recording } }

/-- Method `startRecordingTimer()`: a new interval, its id stored in `recordingTimer`. -/
def startRecordingTimer (s : State) : State :=
  { s with
    intervals := s.intervals ++ [Interval.mk Ticker.recording true 0]
    recordingTimer := some s.intervals.length }

/-- Method `stopRecordingTimer()`. -/
def stopRecordingTimer (s : State) : State :=
  match s.recordingTimer with
  | some id => { s with intervals := clearInterval id s.intervals, recordingTimer := none }
  | none => s

/-- Method `resetRecording()`. -/
def resetRecording (s : State) : State :=
  let s := { s with audioChunks := [], isRecording := false }
  let s := stopRecordingTimer s
  let s := updateRecordingUI false s
  { s with dom := { s.dom with
      transcriptionResultHidden := true
      analysisResultsHidden := true
      retryBtnHidden := true } }

/-- Method `resetAssessment()`. -/
def resetAssessment (s : State) : State :=
  let s := resetRecording s
  let s := { s with dom := { s.dom with recordingInterfaceHidden := true } }
  showToast "Assessment reset. Choose a new test type." ToastType.info s

/-- Method `resetPracticeInterface()`. -/
def resetPracticeInterface (s : State) : State :=
  { s with
    currentPracticeType := none
    dom := { s.dom with practiceInterfaceHidden := true } }

/-- Method `showSection(sectionId)`. -/
def showSection (sectionId : String) (s : State) : State :=
  let s := { s with dom := { s.dom with activeSection := sectionId } }
  if sectionId = "assessment" then
    let s := resetRecording s
    { s with dom := { s.dom with
        recordingInterfaceHidden := true
        analysisResultsHidden := true } }
  else if sectionId = "practice" then
    resetPracticeInterface s
  else s

/-- Table `assessmentConfig` of `startAssessment`: title and instructions. -/
def assessmentConfig : String → Option (String × String)
  | "quick" => some ("Quick English Assessment",
      "Speak for 2-3 minutes about any topic. Talk about your hobbies, work, or daily life. " ++
      "We'll analyze your English proficiency.")
  | "comprehensive" => some ("Comprehensive English Assessment",
      "Speak for 5-7 minutes. Cover different topics and show your full range of English skills. " ++
      "Talk about experiences, opinions, and future plans.")
  | _ => none

/-- Method `startAssessment(type)`. -/
def startAssessment (type : String) (s : State) : State :=
  let s := { s with currentAssessmentType := some type }
  let config := ((assessmentConfig type).orElse (fun _ => assessmentConfig "quick")).getD ("", "")
  let s := { s with dom := { s.dom with
      recordingTitle := config.1
      recordingInstructions := config.2
      recordingInterfaceHidden := false } }
  let s := resetRecording s
  showToast (config.1 ++ " ready! Click the microphone to start.") ToastType.success s

/-- Method `startTopicAssessment()`.  Case conversion is that of Lean strings, which
changes ASCII letters only; `toUpperCase` / `toLowerCase` of the code also convert
other letters, so topics with non-ASCII letters are outside what this model covers. -/
def startTopicAssessment (s : State) : State :=
  let topic := s.dom.assessmentTopic
  let s := { s with currentAssessmentType := some "topic" }
  let topicName := (topic.take 1).toUpper ++ topic.drop 1
  let s := { s with dom := { s.dom with
      recordingTitle := "Topic Assessment: " ++ topicName
      recordingInstructions := "Speak about " ++ topicName.toLower ++
        " for 3-5 minutes. Share your thoughts, experiences, and opinions naturally."
      recordingInterfaceHidden := false } }
  let s := resetRecording s
  showToast ("Topic assessment ready! Talk about " ++ topicName.toLower ++ ".") ToastType.success s

/-- Method `startRecording()` up to `await navigator.mediaDevices.getUserMedia(...)`. -/
def startRecording (s : State) : State :=
  { s with pendingMedia := s.pendingMedia ++ [MediaCaller.startRecording] }

/-- Handler `ondataavailable` installed by `startRecording` and by
`startPracticeRecording`: pushes onto the controller's current `audioChunks`. -/
def ondataavailable (data : Blob) (s : State) : State :=
  if data.size > 0 then { s with audioChunks := s.audioChunks ++ [data] } else s

/-- Method `startRecording()` from the point where `getUserMedia` settles: the body
of the `try` when the stream is granted, the `catch` when it is refused. -/
def startRecordingResume (granted : Bool) (s : State) : State :=
  if granted then
    let stream := s.streams.length
    let s := { s with streams := s.streams ++ [true] }
    let s := { s with
      recorders := s.recorders ++
        [Recorder.mk stream RecorderState.recording StopHandler.processRecording]
      mediaRecorder := some s.recorders.length }
    let s := { s with audioChunks := [] }
    let s := { s with isRecording := true }
    let s := { s with recordingStartTime := some s.now }
    let s := updateRecordingUI true s
    let s := startRecordingTimer s
    showToast "Recording started! Speak naturally." ToastType.success s
  else
    showToast "Failed to start recording. Check microphone permissions." ToastType.error s

/-- Method `stopRecording()`. -/
def stopRecording (s : State) : State :=
  match s.mediaRecorder with
  | some r =>
    if s.isRecording then
      let s := { s with recorders := stopRecorder r s.recorders }
      let s := { s with streams := stopTracks r s.recorders s.streams }
      let s := { s with isRecording := false }
      let s := updateRecordingUI false s
      let s := stopRecordingTimer s
      showToast "Recording stopped! Processing..." ToastType.info s
    else s
  | none => s

/-- Method `toggleRecording()`. -/
def toggleRecording (s : State) : State :=
  if s.isRecording then stopRecording s else startRecording s

/-- Method `String.prototype.padStart(2, '0')`. -/
def padStart2 (t : String) : String :=
  if t.length < 2 then String.mk (List.replicate (2 - t.length) '0') ++ t else t

/-- Callback of the interval created by `startRecordingTimer`. -/
def recordingTimerTick (s : State) : State :=
  let elapsed := s.now - s.recordingStartTime.getD 0
  let minutes := elapsed / 60000
  let seconds := (elapsed % 60000) / 1000
  { s with dom := { s.dom with
      recordingTimerText := padStart2 (toString minutes) ++ ":" ++ padStart2 (toString seconds) } }

/-! ## Results of an analysis -/

/-- How a block of statements ends: normally or by throwing, in either case with
the state reached at that point. -/
inductive Completion where
  | normal (s : State)
  | thrown (s : State)

/-- State reached by a block, however it ended. -/
def Completion.state : Completion → State
  | Completion.normal s => s
  | Completion.thrown s => s

/-- Method `displayTranscription(transcription)`. -/
def displayTranscription (transcription : JsVal) (s : State) : State :=
  { s with
    calls := s.calls ++ [Call.displayTranscription]
    dom := { s.dom with
      transcriptionText := textContentOf transcription
      transcriptionResultHidden := false
      retryBtnHidden := false } }

/-- Method `updateList(listId, items)`: the new `innerHTML` of the list, given its
current one. -/
def updateList (items : JsVal) (current : String) : String :=
  match items with
  | JsVal.arr (item :: rest) => listItems (item :: rest)
  | _ => current

/-- Method `displayAnalysis(analysis)`.  It throws when `analysis` is nullish (first
property read) and when `analysis.vocabulary.advanced_words` is truthy but has no
`join` method. -/
def displayAnalysis (analysis : JsVal) (s : State) : Completion :=
  let s := { s with calls := s.calls ++ [Call.displayAnalysis] }
  if analysis.isNullish then Completion.thrown s else
  let str := JsVal.str
  let strs := fun (l : List String) => JsVal.arr (l.map JsVal.str)
  let s := { s with dom := { s.dom with
    overallGrade := textContentOf ((analysis.field "overall_grade").or (str "5.0"))
    cefrLevel := textContentOf ((analysis.field "cefr_level").or (str "B1"))
    levelDescription := textContentOf ((analysis.field "level_description").or (str "Intermediate"))
    pronunciationAnalysis := textContentOf (((analysis.field "pronunciation").field "feedback").or
      (str ("Your pronunciation shows good clarity with room for improvement in stress patterns " ++
        "and intonation.")))
    vocabularyAnalysis := textContentOf (((analysis.field "vocabulary").field "feedback").or
      (str ("You demonstrate solid vocabulary usage. Focus on incorporating more sophisticated " ++
        "expressions and idiomatic language.")))
    grammarAnalysis := textContentOf (((analysis.field "grammar").field "feedback").or
      (str ("Your grammar foundation is strong. Work on complex sentence structures and advanced " ++
        "tense usage.")))
    fluencyAnalysis := textContentOf (((analysis.field "fluency").field "feedback").or
      (str ("Your speech flows naturally with minimal hesitation. Focus on reducing filler words " ++
        "and smoother transitions."))) } }
  let advanced := (analysis.field "vocabulary").field "advanced_words"
  let words : Option String :=
    if advanced.truthy then
      match advanced with
      | JsVal.arr items => some (JsVal.joinWith ", " items)
      | _ => none
    else some s.dom.advancedWords
  match words with
  | none => Completion.thrown s
  | some w =>
    let s := { s with dom := { s.dom with advancedWords := w } }
    let s := { s with dom := { s.dom with
      grammarStrengths := updateList (((analysis.field "grammar").field "strengths").or
        (strs ["Accurate basic tense usage", "Good sentence structure"])) s.dom.grammarStrengths
      grammarAreas := updateList (((analysis.field "grammar").field "areas").or
        (strs ["Complex conditionals", "Advanced connectors"])) s.dom.grammarAreas
      speakingRate := ((analysis.field "words_per_minute").or (JsVal.num "145" Sign.pos)).toStr
        ++ " words/minute"
      fillerCount := (((analysis.field "fluency").field "filler_count").or
        (JsVal.num "5" Sign.pos)).toStr ++ " instances"
      pronunciationPlan := updateList ((analysis.field "pronunciation_plan").or (strs [
        "Practice tongue twisters daily for 10 minutes",
        "Record yourself reading and compare with native speakers",
        "Focus on word stress patterns"])) s.dom.pronunciationPlan
      vocabularyPlan := updateList ((analysis.field "vocabulary_plan").or (strs [
        "Learn 5 advanced synonyms daily",
        "Study collocations and phrasal verbs",
        "Read academic articles in your field"])) s.dom.vocabularyPlan
      grammarPlan := updateList ((analysis.field "grammar_plan").or (strs [
        "Practice conditional sentences daily",
        "Study advanced connectors",
        "Write complex sentences and get feedback"])) s.dom.grammarPlan
      fluencyPlan := updateList ((analysis.field "fluency_plan").or (strs [
        "Practice speaking without filler words",
        "Use transition phrases between ideas",
        "Record yourself and identify patterns"])) s.dom.fluencyPlan
      nextLevelPath := "<p>" ++ ((analysis.field "next_level_path").or
        (str ("Continue practicing consistently to reach the next proficiency level. " ++
          "Focus on the priority areas identified above."))).toStr ++ "</p>"
      analysisResultsHidden := false } }
    Completion.normal s

/-- Method `transcribeAndAnalyze(audioBlob)` up to `await fetch('/analyze_speech', ...)`. -/
def transcribeAndAnalyze (audioBlob : Blob) (s : State) : State :=
  let s := showLoading "Analyzing your speech..." s
  let type := if truthyStr s.currentAssessmentType then s.currentAssessmentType.getD "" else "general"
  { s with
    requests := s.requests ++ [Request.analyzeSpeech audioBlob type]
    pendingFetch := s.pendingFetch ++ [Operation.transcribeAndAnalyze] }

/-- The rest of the `try` block of `transcribeAndAnalyze`, from the point where the
response settles. -/
def transcribeAndAnalyzeTry (resp : Response) (s : State) : Completion :=
  match resp with
  | Response.rejected => Completion.thrown s
  | Response.unparseable => Completion.thrown s
  | Response.json result =>
    let s := hideLoading s
    if result.isNullish then Completion.thrown s
    else if (result.field "success").truthy then
      let s := displayTranscription (result.field "transcription") s
      if (result.field "analysis").truthy then
        match displayAnalysis (result.field "analysis") s with
        | Completion.normal s =>
          Completion.normal (showToast "Speech analysis complete!" ToastType.success s)
        | Completion.thrown s => Completion.thrown s
      else Completion.normal (showToast "Speech analysis complete!" ToastType.success s)
    else
      Completion.normal (showToast
        ((result.field "error").or (JsVal.str "Analysis failed. Please try again.")).toStr
        ToastType.error s)

/-- Method `transcribeAndAnalyze` from the point where the response settles: the
`try` block, and the `catch` block if it throws. -/
def transcribeAndAnalyzeResume (resp : Response) (s : State) : State :=
  match transcribeAndAnalyzeTry resp s with
  | Completion.normal s => s
  | Completion.thrown s =>
    let s := hideLoading s
    showToast "Failed to analyze speech. Check connection and try again." ToastType.error s

/-- Method `processRecording()`, the `onstop` handler installed by `startRecording`. -/
def processRecording (s : State) : State :=
  let s := { s with calls := s.calls ++ [Call.processRecording] }
  if s.audioChunks.length = 0 then
    showToast "No audio recorded. Please try again." ToastType.error s
  else
    let audioBlob := Blob.ofParts s.audioChunks
    transcribeAndAnalyze audioBlob s

/-! ## Practice -/

/-- Table `typeNames` of `selectPracticeType`: its six own keys.  The lookup in the
code also answers the keys an object literal inherits from `Object.prototype` (such
as `"constructor"`), which no practice card of the page carries; those keys are
outside what this model covers. -/
def typeNames : String → Option String
  | "conversation" => some "Conversation Mastery"
  | "pronunciation" => some "Pronunciation Perfection"
  | "vocabulary" => some "Advanced Vocabulary"
  | "storytelling" => some "Narrative Excellence"
  | "presentation" => some "Professional Presentation"
  | "song_analysis" => some "Musical Language Learning"
  | _ => none

/-- Method `getNewPracticePrompt()` up to `await fetch('/get_practice_prompt', ...)`. -/
def getNewPracticePrompt (s : State) : State :=
  if !truthyStr s.currentPracticeType then s else
  let s := showLoading "Generating practice prompt..." s
  let level := s.dom.practiceLevel
  let topic := s.dom.practiceTopic
  { s with
    requests := s.requests ++ [Request.getPracticePrompt s.currentPracticeType topic level]
    pendingFetch := s.pendingFetch ++ [Operation.getNewPracticePrompt] }

/-- The rest of the `try` block of `getNewPracticePrompt`. -/
def getNewPracticePromptTry (resp : Response) (s : State) : Completion :=
  match resp with
  | Response.rejected => Completion.thrown s
  | Response.unparseable => Completion.thrown s
  | Response.json result =>
    let s := hideLoading s
    if result.isNullish then Completion.thrown s
    else if (result.field "success").truthy then
      let prompt := result.field "prompt"
      if prompt.isNullish then Completion.thrown s else
      Completion.normal { s with dom := { s.dom with
        promptText := textContentOf (prompt.field "prompt")
        promptInstructions := textContentOf (prompt.field "instructions")
        practiceTranscriptionHidden := true
        coachingFeedbackHidden := true } }
    else
      Completion.normal (showToast
        ((result.field "error").or (JsVal.str "Failed to generate prompt")).toStr
        ToastType.error s)

/-- Method `getNewPracticePrompt` from the point where the response settles. -/
def getNewPracticePromptResume (resp : Response) (s : State) : State :=
  match getNewPracticePromptTry resp s with
  | Completion.normal s => s
  | Completion.thrown s =>
    let s := hideLoading s
    showToast "Failed to generate practice prompt" ToastType.error s

/-- Method `selectPracticeType(type)`. -/
def selectPracticeType (type : String) (s : State) : State :=
  let s := { s with currentPracticeType := some type }
  let s := { s with dom := { s.dom with
      practiceTitle := (typeNames type).getD "Practice Session"
      sessionType := (typeNames type).getD "Practice Session"
      practiceInterfaceHidden := false } }
  let s := getNewPracticePrompt s
  showToast ((typeNames type).getD "undefined" ++
    " selected! Loading your personalized challenge...") ToastType.success s

/-- Method `startPracticeTimer()`: a new interval, its id stored in `practiceTimer`. -/
def startPracticeTimer (s : State) : State :=
  { s with
    intervals := s.intervals ++ [Interval.mk Ticker.practice true 0]
    practiceTimer := some s.intervals.length }

/-- Callback of the interval `id` created by `startPracticeTimer`. -/
def practiceTimerTick (id : Nat) (iv : Interval) (s : State) : State :=
  let seconds := iv.seconds + 1
  let minutes := seconds / 60
  let remainingSeconds := seconds % 60
  { s with
    intervals := s.intervals.set id { iv with seconds := seconds }
    dom := { s.dom with
      practiceTimerText :=
        padStart2 (toString minutes) ++ ":" ++ padStart2 (toString remainingSeconds) } }

/-- Method `stopPracticeTimer()`. -/
def stopPracticeTimer (s : State) : State :=
  match s.practiceTimer with
  | some id => { s with intervals := clearInterval id s.intervals, practiceTimer := none }
  | none => s

/-- Method `startPracticeRecording()` up to `await navigator.mediaDevices.getUserMedia(...)`. -/
def startPracticeRecording (s : State) : State :=
  { s with pendingMedia := s.pendingMedia ++ [MediaCaller.startPracticeRecording] }

/-- Method `startPracticeRecording()` from the point where `getUserMedia` settles. -/
def startPracticeRecordingResume (granted : Bool) (s : State) : State :=
  if granted then
    let stream := s.streams.length
    let s := { s with streams := s.streams ++ [true] }
    let s := { s with
      recorders := s.recorders ++
        [Recorder.mk stream RecorderState.recording StopHandler.processPracticeRecording]
      mediaRecorder := some s.recorders.length }
    let s := { s with audioChunks := [] }
    { s with isRecording := true }
  else
    showToast "Failed to start recording" ToastType.error s

/-- Method `togglePracticeRecording()` up to its first suspension: the branch taken
when `isRecording` holds runs to the end, the other one suspends inside
`startPracticeRecording`. -/
def togglePracticeRecording (s : State) : State :=
  if s.isRecording then
    let s := stopRecording s
    let s := { s with dom := { s.dom with
        practiceRecordBtnStop := false
        practiceRecordingStatusHidden := true } }
    stopPracticeTimer s
  else
    startPracticeRecording s

/-- Method `togglePracticeRecording()` from the point where `getUserMedia` settles:
the rest of `startPracticeRecording`, then the statements after the `await`. -/
def togglePracticeRecordingResume (granted : Bool) (s : State) : State :=
  let s := startPracticeRecordingResume granted s
  let s := { s with dom := { s.dom with
      practiceRecordBtnStop := true
      practiceRecordBtnRecording := true
      practiceRecordingStatusHidden := false } }
  startPracticeTimer s

/-- Method `transcribePracticeAudio(audioBlob)` up to `await fetch('/transcribe_audio', ...)`. -/
def transcribePracticeAudio (audioBlob : Blob) (s : State) : State :=
  let s := showLoading "Transcribing your speech..." s
  { s with
    requests := s.requests ++ [Request.transcribeAudio audioBlob]
    pendingFetch := s.pendingFetch ++ [Operation.transcribePracticeAudio] }

/-- The rest of the `try` block of `transcribePracticeAudio`. -/
def transcribePracticeAudioTry (resp : Response) (s : State) : Completion :=
  match resp with
  | Response.rejected => Completion.thrown s
  | Response.unparseable => Completion.thrown s
  | Response.json result =>
    let s := hideLoading s
    if result.isNullish then Completion.thrown s
    else if (result.field "success").truthy then
      Completion.normal { s with dom := { s.dom with
        practiceTranscriptionText := textContentOf (result.field "transcription")
        practiceTranscriptionHidden := false
        coachingFeedbackHidden := true } }
    else
      Completion.normal (showToast
        ((result.field "error").or (JsVal.str "Transcription failed")).toStr
        ToastType.error s)

/-- Method `transcribePracticeAudio` from the point where the response settles. -/
def transcribePracticeAudioResume (resp : Response) (s : State) : State :=
  match transcribePracticeAudioTry resp s with
  | Completion.normal s => s
  | Completion.thrown s =>
    let s := hideLoading s
    showToast "Failed to transcribe audio" ToastType.error s

/-- Method `processPracticeRecording()`, the `onstop` handler installed by
`startPracticeRecording`. -/
def processPracticeRecording (s : State) : State :=
  let s := { s with calls := s.calls ++ [Call.processPracticeRecording] }
  if s.audioChunks.length = 0 then
    showToast "No audio recorded" ToastType.error s
  else
    let audioBlob := Blob.ofParts s.audioChunks
    transcribePracticeAudio audioBlob s

/-- Markup of one entry of `#correctionsList` (layout whitespace left out). -/
def correctionItem (correction : JsVal) : String :=
  "<div class=\"correction-item\"><div class=\"correction-original\">Original: " ++
    correction.toStr ++ "</div></div>"

/-- Method `displayCoaching(coaching)`.  It throws when `coaching` is nullish, when
`vocabulary_enhancement` is neither nullish nor an array, and when `corrections` is
truthy with a positive `length` but is not an array. -/
def displayCoaching (coaching : JsVal) (s : State) : Completion :=
  let s := { s with calls := s.calls ++ [Call.displayCoaching] }
  if coaching.isNullish then Completion.thrown s else
  let str := JsVal.str
  let s := { s with dom := { s.dom with
    immediateFeedback := textContentOf ((coaching.field "immediate_feedback").or (str "Great effort!"))
    pronunciationTips := textContentOf ((coaching.field "pronunciation_notes").or
      (str "Keep practicing your pronunciation")) } }
  let enhancement := coaching.field "vocabulary_enhancement"
  let joined : Option JsVal :=
    if enhancement.isNullish then some JsVal.undefined
    else match enhancement with
      | JsVal.arr items => some (str (JsVal.joinWith ". " items))
      | _ => none
  match joined with
  | none => Completion.thrown s
  | some j =>
    let s := { s with dom := { s.dom with
      vocabularyTips := textContentOf (j.or (str "Expand your vocabulary"))
      fluencyTips := textContentOf ((coaching.field "fluency_tips").or (str "Work on fluency"))
      encouragementText := textContentOf ((coaching.field "encouragement").or
        (str "Keep up the good work!"))
      nextChallenge := textContentOf ((coaching.field "next_challenge").or
        (str "Try more complex sentences")) } }
    let corrections := coaching.field "corrections"
    let markup : Option String :=
      if corrections.truthy && corrections.lengthPositive then
        match corrections with
        | JsVal.arr items => some (String.join (items.map correctionItem))
        | _ => none
      else some "<p>No major corrections needed!</p>"
    match markup with
    | none => Completion.thrown s
    | some m =>
      Completion.normal { s with dom := { s.dom with
        correctionsList := m
        coachingFeedbackHidden := false } }

/-- Method `getCoaching()` up to `await fetch('/practice_session', ...)`. -/
def getCoaching (s : State) : State :=
  let transcription := s.dom.practiceTranscriptionText
  if transcription = "" then
    showToast "No transcription available" ToastType.error s
  else
    let s := showLoading "Getting personalized coaching..." s
    let level := s.dom.practiceLevel
    let topic := s.dom.practiceTopic
    { s with
      requests := s.requests ++
        [Request.practiceSession s.currentPracticeType topic transcription level]
      pendingFetch := s.pendingFetch ++ [Operation.getCoaching] }

/-- The rest of the `try` block of `getCoaching`. -/
def getCoachingTry (resp : Response) (s : State) : Completion :=
  match resp with
  | Response.rejected => Completion.thrown s
  | Response.unparseable => Completion.thrown s
  | Response.json result =>
    let s := hideLoading s
    if result.isNullish then Completion.thrown s
    else if (result.field "success").truthy then
      displayCoaching (result.field "coaching") s
    else
      Completion.normal (showToast
        ((result.field "error").or (JsVal.str "Coaching failed")).toStr
        ToastType.error s)

/-- Method `getCoaching` from the point where the response settles. -/
def getCoachingResume (resp : Response) (s : State) : State :=
  match getCoachingTry resp s with
  | Completion.normal s => s
  | Completion.thrown s =>
    let s := hideLoading s
    showToast "Failed to get coaching feedback" ToastType.error s

/-- Method `continuePractice()`. -/
def continuePractice (s : State) : State := getNewPracticePrompt s

/-- Method `changePracticeType()`. -/
def changePracticeType (s : State) : State :=
  { s with
    dom := { s.dom with practiceInterfaceHidden := true }
    currentPracticeType := none }

/-- Method `checkMicrophonePermission()` up to `await getUserMedia`. -/
def checkMicrophonePermission (s : State) : State :=
  { s with pendingMedia := s.pendingMedia ++ [MediaCaller.checkMicrophonePermission] }

/-- Method `checkMicrophonePermission()` from the point where `getUserMedia` settles:
a granted stream is released at once. -/
def checkMicrophonePermissionResume (granted : Bool) (s : State) : State :=
  if granted then
    { s with streams := s.streams ++ [false] }
  else
    showToast "Microphone access is required. Please allow microphone access and refresh."
      ToastType.error s

/-! ## The event loop -/

/-- One task of the event loop: a user action on the page, or a platform event. -/
inductive Event where
  /-- Click on a navigation link whose `href` is `#target`. -/
  | clickNavLink (target : String)
  | clickStartAssessmentBtn
  | clickStartPracticeBtn
  | clickQuickAssessmentBtn
  | clickComprehensiveAssessmentBtn
  | clickTopicAssessmentBtn
  | clickRecordBtn
  | clickRetryBtn
  | clickGoToPracticeBtn
  | clickRetakeAssessmentBtn
  /-- Click on a practice card whose `data-practice-type` attribute is `practiceType`. -/
  | clickPracticeCard (practiceType : String)
  | clickPracticeRecordBtn
  | clickGetNewPromptBtn
  | clickGetCoachingBtn
  | clickContinuePracticeBtn
  | clickChangePracticeTypeBtn
  /-- The user changes the value of `#assessmentTopic`. -/
  | inputAssessmentTopic (value : String)
  /-- The user changes the value of `#practiceLevel`. -/
  | inputPracticeLevel (value : String)
  /-- The user changes the value of `#practiceTopic`. -/
  | inputPracticeTopic (value : String)
  /-- The `i`-th pending `getUserMedia` call resolves with a fresh stream. -/
  | mediaGranted (i : Nat)
  /-- The `i`-th pending `getUserMedia` call rejects. -/
  | mediaDenied (i : Nat)
  /-- Recorder `r`, while recording, fires `dataavailable` (its time slice elapsed). -/
  | dataAvailable (r : Nat) (data : Blob)
  /-- The task queued by `stop()` on recorder `r` runs: `dataavailable` with the
  remaining data, then `stop`. -/
  | recorderStopped (r : Nat) (data : Blob)
  /-- The `i`-th in-flight request settles. -/
  | fetchSettled (i : Nat) (resp : Response)
  /-- The interval `id` fires. -/
  | intervalFired (id : Nat)
  /-- The clock read by `Date.now()` advances. -/
  | clockAdvanced (ms : Nat)

/-- Continuation of a suspended `getUserMedia` caller. -/
def resumeMedia (caller : MediaCaller) (granted : Bool) (s : State) : State :=
  match caller with
  | MediaCaller.checkMicrophonePermission => checkMicrophonePermissionResume granted s
  | MediaCaller.startRecording => startRecordingResume granted s
  | MediaCaller.startPracticeRecording => togglePracticeRecordingResume granted s

/-- Continuation of a suspended `fetch` caller. -/
def resumeFetch (op : Operation) (resp : Response) (s : State) : State :=
  match op with
  | Operation.transcribeAndAnalyze => transcribeAndAnalyzeResume resp s
  | Operation.getNewPracticePrompt => getNewPracticePromptResume resp s
  | Operation.transcribePracticeAudio => transcribePracticeAudioResume resp s
  | Operation.getCoaching => getCoachingResume resp s

/-- The `onstop` handler of a recorder. -/
def runStopHandler (h : StopHandler) (s : State) : State :=
  match h with
  | StopHandler.processRecording => processRecording s
  | StopHandler.processPracticeRecording => processPracticeRecording s

/-- Dispatch of one task.  The listeners are those of `setupEventListeners`; a
platform event that cannot occur in the state (no such pending call, recorder not
in the required state, interval cleared) gives `none`. -/
def step (s : State) : Event → Option State
  | Event.clickNavLink target => some (showSection target s)
  | Event.clickStartAssessmentBtn => some (showSection "assessment" s)
  | Event.clickStartPracticeBtn => some (showSection "practice" s)
  | Event.clickQuickAssessmentBtn => some (startAssessment "quick" s)
  | Event.clickComprehensiveAssessmentBtn => some (startAssessment "comprehensive" s)
  | Event.clickTopicAssessmentBtn => some (startTopicAssessment s)
  | Event.clickRecordBtn => some (toggleRecording s)
  | Event.clickRetryBtn => some (resetRecording s)
  | Event.clickGoToPracticeBtn => some (showSection "practice" s)
  | Event.clickRetakeAssessmentBtn => some (resetAssessment s)
  | Event.clickPracticeCard practiceType =>
    some (if practiceType ≠ "" then selectPracticeType practiceType s else s)
  | Event.clickPracticeRecordBtn => some (togglePracticeRecording s)
  | Event.clickGetNewPromptBtn => some (getNewPracticePrompt s)
  | Event.clickGetCoachingBtn => some (getCoaching s)
  | Event.clickContinuePracticeBtn => some (continuePractice s)
  | Event.clickChangePracticeTypeBtn => some (changePracticeType s)
  | Event.inputAssessmentTopic value =>
    some { s with dom := { s.dom with assessmentTopic := value } }
  | Event.inputPracticeLevel value =>
    some { s with dom := { s.dom with practiceLevel := value } }
  | Event.inputPracticeTopic value =>
    some { s with dom := { s.dom with practiceTopic := value } }
  | Event.mediaGranted i =>
    match s.pendingMedia[i]? with
    | some caller => some (resumeMedia caller true { s with pendingMedia := s.pendingMedia.eraseIdx i })
    | none => none
  | Event.mediaDenied i =>
    match s.pendingMedia[i]? with
    | some caller => some (resumeMedia caller false { s with pendingMedia := s.pendingMedia.eraseIdx i })
    | none => none
  | Event.dataAvailable r data =>
    match s.recorders[r]? with
    | some rec => if rec.state = RecorderState.recording then some (ondataavailable data s) else none
    | none => none
  | Event.recorderStopped r data =>
    match s.recorders[r]? with
    | some rec =>
      if rec.state = RecorderState.stopping then
        let s := ondataavailable data s
        let s := { s with recorders := s.recorders.set r { rec with state := RecorderState.inactive } }
        some (runStopHandler rec.onstop s)
      else none
    | none => none
  | Event.fetchSettled i resp =>
    match s.pendingFetch[i]? with
    | some op => some (resumeFetch op resp { s with pendingFetch := s.pendingFetch.eraseIdx i })
    | none => none
  | Event.intervalFired id =>
    match s.intervals[id]? with
    | some iv =>
      if iv.active then
        match iv.ticker with
        | Ticker.recording => some (recordingTimerTick s)
        | Ticker.practice => some (practiceTimerTick id iv s)
      else none
    | none => none
  | Event.clockAdvanced ms => some { s with now := s.now + ms }

/-- A sequence of tasks, from a given state; `none` if one of them cannot occur. -/
def run : State → List Event → Option State
  | s, [] => some s
  | s, e :: es =>
    match step s e with
    | some s1 => run s1 es
    | none => none

/-- State after `new EnglishFluencyCoach()` on the page `page` at time `now`: the
constructor's fields, then `init()` (listeners, the microphone check left pending,
`showSection('home')`). -/
def init (page : Dom) (now : Nat) : State :=
  let s : State :=
    { mediaRecorder := none
      audioChunks := []
      isRecording := false
      recordingTimer := none
      recordingStartTime := none
      currentAssessmentType := none
      currentPracticeType := none
      practiceTimer := none
      now := now
      streams := []
      recorders := []
      intervals := []
      pendingMedia := []
      pendingFetch := []
      requests := []
      toasts := []
      calls := []
      dom := page }
  let s := checkMicrophonePermission s
  showSection "home" s

/-- A page with empty texts, every panel hidden and no loading overlay shown. -/
def blankPage : Dom :=
  { activeSection := ""
    assessmentTopic := ""
    recordingTitle := ""
    recordingInstructions := ""
    recordingInterfaceHidden := true
    recordBtnRecording := false
    recordingStatusHidden := true
    recordingTimerText := ""
    transcriptionText := ""
    transcriptionResultHidden := true
    retryBtnHidden := true
    analysisResultsHidden := true
    overallGrade := ""
    cefrLevel := ""
    levelDescription := ""
    pronunciationAnalysis := ""
    vocabularyAnalysis := ""
    grammarAnalysis := ""
    fluencyAnalysis := ""
    advancedWords := ""
    grammarStrengths := ""
    grammarAreas := ""
    speakingRate := ""
    fillerCount := ""
    pronunciationPlan := ""
    vocabularyPlan := ""
    grammarPlan := ""
    fluencyPlan := ""
    nextLevelPath := ""
    practiceLevel := ""
    practiceTopic := ""
    practiceTitle := ""
    sessionType := ""
    practiceInterfaceHidden := true
    promptText := ""
    promptInstructions := ""
    practiceRecordBtnStop := false
    practiceRecordBtnRecording := false
    practiceRecordingStatusHidden := true
    practiceTimerText := ""
    practiceTranscriptionText := ""
    practiceTranscriptionHidden := true
    coachingFeedbackHidden := true
    immediateFeedback := ""
    pronunciationTips := ""
    vocabularyTips := ""
    fluencyTips := ""
    encouragementText := ""
    nextChallenge := ""
    correctionsList := ""
    loadingText := ""
    loadingOverlayHidden := true }

/-- Recorders that are un-stopped and hold a live stream. -/
def armedRecorders (s : State) : List Recorder :=
  s.recorders.filter (fun rec =>
    decide (rec.state = RecorderState.recording) && (s.streams[rec.stream]?).getD false)

/-- The `ondataavailable` handler applied to each chunk of a list, in arrival order. -/
def deliver (chunks : List Blob) (s : State) : State :=
  chunks.foldl (fun st data => ondataavailable data st) s

/-- Value of `this.currentAssessmentType || 'general'`. -/
def typeTag (s : State) : String :=
  if truthyStr s.currentAssessmentType then s.currentAssessmentType.getD "" else "general"

/-- Some interval created by `setInterval` is still running. -/
def tickerRunning (s : State) : Bool :=
  s.intervals.any (fun iv => iv.active)

/-! ## The recording session inside the state

The fields that make up the recording session, and the ways a task can act
on them.  `step_session` below shows that every task acts on the session by
exactly one of them; invariants of the session are then proved on these. -/

/-- The recording session: recorder reference, buffer, flag, selected assessment
kind, and the platform's streams and recorders. -/
structure Session where
  mediaRecorder : Option Nat
  audioChunks : List Blob
  isRecording : Bool
  currentAssessmentType : Option String
  streams : List Bool
  recorders : List Recorder
deriving DecidableEq, Repr

/-- The session part of a state. -/
def State.session (s : State) : Session :=
  { mediaRecorder := s.mediaRecorder
    audioChunks := s.audioChunks
    isRecording := s.isRecording
    currentAssessmentType := s.currentAssessmentType
    streams := s.streams
    recorders := s.recorders }

/-- The ways a task acts on the session. -/
inductive Effect where
  /-- The session is untouched. -/
  | none
  /-- The assignments of `resetRecording`. -/
  | reset
  /-- The assignments of `startAssessment(type)` / `startTopicAssessment()`. -/
  | select (type : String)
  /-- The assignments of `stopRecording`. -/
  | stop
  /-- The assignments of a granted `startRecording` / `startPracticeRecording`. -/
  | arm (onstop : StopHandler)
  /-- A stream acquired and released by `checkMicrophonePermission`. -/
  | probe
  /-- A `dataavailable` event. -/
  | chunk (data : Blob)
  /-- The final task of recorder `r`. -/
  | stopped (r : Nat) (data : Blob)

/-- Action of an effect on the session. -/
def Session.apply (σ : Session) : Effect → Session
  | Effect.none => σ
  | Effect.reset => { σ with audioChunks := [], isRecording := false }
  | Effect.select type =>
    { σ with currentAssessmentType := some type, audioChunks := [], isRecording := false }
  | Effect.stop =>
    match σ.mediaRecorder with
    | some r =>
      if σ.isRecording then
        { σ with
          recorders := stopRecorder r σ.recorders
          streams := stopTracks r (stopRecorder r σ.recorders) σ.streams
          isRecording := false }
      else σ
    | Option.none => σ
  | Effect.arm onstop =>
    { mediaRecorder := some σ.recorders.length
      audioChunks := []
      isRecording := true
      currentAssessmentType := σ.currentAssessmentType
      streams := σ.streams ++ [true]
      recorders := σ.recorders ++ [Recorder.mk σ.streams.length RecorderState.recording onstop] }
  | Effect.probe => { σ with streams := σ.streams ++ [false] }
  | Effect.chunk data =>
    if data.size > 0 then { σ with audioChunks := σ.audioChunks ++ [data] } else σ
  | Effect.stopped r data =>
    match σ.recorders[r]? with
    | some rec =>
      { σ with
        audioChunks := if data.size > 0 then σ.audioChunks ++ [data] else σ.audioChunks
        recorders := σ.recorders.set r { rec with state := RecorderState.inactive } }
    | Option.none => σ

/-- The effect of a task on the session, read off the listener it runs. -/
def effectOf (s : State) : Event → Effect
  | Event.clickNavLink target => if target = "assessment" then Effect.reset else Effect.none
  | Event.clickStartAssessmentBtn => Effect.reset
  | Event.clickQuickAssessmentBtn => Effect.select "quick"
  | Event.clickComprehensiveAssessmentBtn => Effect.select "comprehensive"
  | Event.clickTopicAssessmentBtn => Effect.select "topic"
  | Event.clickRetryBtn => Effect.reset
  | Event.clickRetakeAssessmentBtn => Effect.reset
  | Event.clickRecordBtn => if s.isRecording then Effect.stop else Effect.none
  | Event.clickPracticeRecordBtn => if s.isRecording then Effect.stop else Effect.none
  | Event.mediaGranted i =>
    match s.pendingMedia[i]? with
    | some MediaCaller.checkMicrophonePermission => Effect.probe
    | some MediaCaller.startRecording => Effect.arm StopHandler.processRecording
    | some MediaCaller.startPracticeRecording => Effect.arm StopHandler.processPracticeRecording
    | Option.none => Effect.none
  | Event.dataAvailable _ data => Effect.chunk data
  | Event.recorderStopped r data => Effect.stopped r data
  | _ => Effect.none

/-- Side condition under which the platform runs a task with the given effect: the
final task of a recorder runs only after `stop()` was called on it. -/
def Effect.enabled (σ : Session) : Effect → Prop
  | Effect.stopped r _ => ∃ rec, σ.recorders[r]? = some rec ∧ rec.state = RecorderState.stopping
  | _ => True

/-- While `isRecording` holds, `mediaRecorder` is an un-stopped recorder on a live
stream. -/
def Session.tracked (σ : Session) : Prop :=
  σ.isRecording = true →
    ∃ r rec, σ.mediaRecorder = some r ∧ σ.recorders[r]? = some rec ∧
      rec.state = RecorderState.recording ∧ σ.streams[rec.stream]? = some true

/-- Recorder `r` is recording and is not the one `stopRecording` would stop. -/
def Session.orphan (r : Nat) (σ : Session) : Prop :=
  (∃ rec, σ.recorders[r]? = some rec ∧ rec.state = RecorderState.recording) ∧
    (σ.isRecording = true → σ.mediaRecorder ≠ some r)

/-- Recorder `r` exists and its `onstop` handler is `h`. -/
def Session.handlerIs (r : Nat) (h : StopHandler) (σ : Session) : Prop :=
  ∃ rec, σ.recorders[r]? = some rec ∧ rec.onstop = h

/-- Tasks that neither arm nor reset: every task except a granted `getUserMedia`
and the clicks whose listener calls `resetRecording`. -/
def quietEvent : Event → Bool
  | Event.clickNavLink target => decide (target ≠ "assessment")
  | Event.clickStartAssessmentBtn => false
  | Event.clickQuickAssessmentBtn => false
  | Event.clickComprehensiveAssessmentBtn => false
  | Event.clickTopicAssessmentBtn => false
  | Event.clickRetryBtn => false
  | Event.clickRetakeAssessmentBtn => false
  | Event.mediaGranted _ => false
  | _ => true

/-- Clicks that select an assessment kind. -/
def selectsAssessment : Event → Bool
  | Event.clickQuickAssessmentBtn => true
  | Event.clickComprehensiveAssessmentBtn => true
  | Event.clickTopicAssessmentBtn => true
  | _ => false

/-- The chunks carried by the `dataavailable` events of a task list, in order. -/
def deliveredChunks : List Event → List Blob
  | [] => []
  | Event.dataAvailable _ data :: es => data :: deliveredChunks es
  | Event.recorderStopped _ data :: es => data :: deliveredChunks es
  | _ :: es => deliveredChunks es

/-- The chunks of size greater than 0, in order. -/
def nonEmptyChunks (chunks : List Blob) : List Blob :=
  chunks.filter (fun data => decide (data.size > 0))

/-- The recorder whose `dataavailable` event a task carries, if it carries one. -/
def chunkSource : Event → Option Nat
  | Event.dataAvailable r _ => some r
  | Event.recorderStopped r _ => some r
  | _ => none

/-- The chunks delivered by recorder `r` in a task list, in order. -/
def chunksFrom (r : Nat) : List Event → List Blob
  | [] => []
  | Event.dataAvailable r1 data :: es =>
    if r1 = r then data :: chunksFrom r es else chunksFrom r es
  | Event.recorderStopped r1 data :: es =>
    if r1 = r then data :: chunksFrom r es else chunksFrom r es
  | _ :: es => chunksFrom r es

/-- State after a granted arm whose recorder gets the handler `onstop`:
`startRecording` for `processRecording`, `togglePracticeRecording` (through
`startPracticeRecording`) for `processPracticeRecording`. -/
def armWith (onstop : StopHandler) (s : State) : State :=
  match onstop with
  | StopHandler.processRecording => startRecordingResume true s
  | StopHandler.processPracticeRecording => togglePracticeRecordingResume true s

/-- The request each `onstop` handler sends for a blob, in state `s`. -/
def dispatched (onstop : StopHandler) (audioBlob : Blob) (s : State) : Request :=
  match onstop with
  | StopHandler.processRecording => Request.analyzeSpeech audioBlob (typeTag s)
  | StopHandler.processPracticeRecording => Request.transcribeAudio audioBlob

/-- The toast message of the `no audio` branch of each `onstop` handler. -/
def noAudioMessage : StopHandler → String
  | StopHandler.processRecording => "No audio recorded. Please try again."
  | StopHandler.processPracticeRecording => "No audio recorded"

/-- The entry each `onstop` handler leaves in `calls`. -/
def handlerCall : StopHandler → Call
  | StopHandler.processRecording => Call.processRecording
  | StopHandler.processPracticeRecording => Call.processPracticeRecording

/-- Response body `{success: false, error: e}`. -/
def failureBody (e : String) : JsVal :=
  JsVal.obj [("success", JsVal.bool false), ("error", JsVal.str e)]

/-- Response body `{success: true, prompt: {prompt: p, instructions: i}}`. -/
def promptBody (p i : String) : JsVal :=
  JsVal.obj [("success", JsVal.bool true),
    ("prompt", JsVal.obj [("prompt", JsVal.str p), ("instructions", JsVal.str i)])]

/-! ## Example sessions -/

/-- Tasks: the microphone check is granted, the assessment section is opened and the
quick assessment selected. -/
def selectingEvents : List Event :=
  [Event.mediaGranted 0, Event.clickNavLink "assessment", Event.clickQuickAssessmentBtn]

/-- Example: the quick assessment is selected, nothing is recorded yet. -/
def selectedExample : State :=
  (run (init blankPage 0) selectingEvents).getD (init blankPage 0)

/-- Tasks: after the selection, a click on the record button and the grant of its
stream. -/
def armingEvents : List Event :=
  selectingEvents ++ [Event.clickRecordBtn, Event.mediaGranted 0]

/-- Example: an assessment recording is armed (recorder 0 on stream 1). -/
def armedExample : State :=
  (run (init blankPage 0) armingEvents).getD (init blankPage 0)

/-- Tasks: the record button is clicked twice before the first stream is granted;
the first grant arms recorder 0, which delivers a chunk; 500 ms pass. -/
def doubleClickEvents : List Event :=
  selectingEvents ++ [Event.clickRecordBtn, Event.clickRecordBtn, Event.mediaGranted 0,
    Event.dataAvailable 0 (Blob.mk [1, 2]), Event.clockAdvanced 500]

/-- Tasks: a practice type is chosen, its prompt arrives, a practice recording is
armed and delivers two chunks. -/
def practiceArmingEvents : List Event :=
  [Event.mediaGranted 0, Event.clickNavLink "practice", Event.clickPracticeCard "conversation",
    Event.fetchSettled 0 (Response.json (promptBody "Describe your morning" "Speak for 2 minutes")),
    Event.clickPracticeRecordBtn, Event.mediaGranted 0,
    Event.dataAvailable 0 (Blob.mk [1]), Event.dataAvailable 0 (Blob.mk [2])]

/-- Example: a practice recording armed, two chunks buffered. -/
def practiceArmedExample : State :=
  (run (init blankPage 0) practiceArmingEvents).getD (init blankPage 0)

/-- Tasks after an arm: recorder 0 delivers one chunk and the record button is
clicked again, which stops the recording. -/
def recordingEvents : List Event :=
  [Event.dataAvailable 0 (Blob.mk [1]), Event.clickRecordBtn]

/-- Tasks: an assessment recording is armed, delivers one chunk and is stopped. -/
def stoppingEvents : List Event := armingEvents ++ recordingEvents

/-- Example: the recording of `armedExample` has been stopped; the final task of
its recorder has not run yet. -/
def stoppedExample : State :=
  (run (init blankPage 0) stoppingEvents).getD (init blankPage 0)

/-- Example: the state after that final task, which delivers the last chunk. -/
def sentExample : State :=
  (step stoppedExample (Event.recorderStopped 0 (Blob.mk [2]))).getD (init blankPage 0)

/-- Tasks: a recording is armed and reset (retry), a second one is armed, and the
first recorder delivers one more chunk. -/
def restartEvents : List Event :=
  armingEvents ++ [Event.dataAvailable 0 (Blob.mk [1]), Event.clickRetryBtn,
    Event.clickRecordBtn, Event.mediaGranted 0, Event.dataAvailable 0 (Blob.mk [7])]

/-- Tasks: the quick assessment is recorded and stopped, and the comprehensive
assessment is selected before the final task of the recorder runs. -/
def reselectEvents : List Event :=
  stoppingEvents ++ [Event.clickComprehensiveAssessmentBtn,
    Event.recorderStopped 0 (Blob.mk [2])]

/-- Two chunks of sizes 10 and 0. -/
def firstChunks : List Blob :=
  [Blob.mk (List.replicate 10 0), Blob.mk []]

/-- A chunk of size 20. -/
def lastChunk : Blob := Blob.mk (List.replicate 20 0)

/-! ## Tickers, and further example sessions -/

/-- Text written by the callback of `startRecordingTimer` for an elapsed time in
milliseconds. -/
def recordingTimerDisplay (elapsed : Nat) : String :=
  let minutes := elapsed / 60000
  let seconds := (elapsed % 60000) / 1000
  padStart2 (toString minutes) ++ ":" ++ padStart2 (toString seconds)

/-- Text written by the callback of `startPracticeTimer` when its counter has
reached `seconds`. -/
def practiceTimerDisplay (seconds : Nat) : String :=
  let minutes := seconds / 60
  let remainingSeconds := seconds % 60
  padStart2 (toString minutes) ++ ":" ++ padStart2 (toString remainingSeconds)

/-- The interval `id` fires `n` times in a row. -/
def ticks (id : Nat) : Nat → State → Option State
  | 0, s => some s
  | n + 1, s =>
    match step s (Event.intervalFired id) with
    | some s1 => ticks id n s1
    | none => none

/-- Tasks: a practice type is chosen, its prompt arrives, the practice record button
is clicked and the microphone is refused. -/
def deniedPracticeEvents : List Event :=
  [Event.mediaGranted 0, Event.clickNavLink "practice", Event.clickPracticeCard "conversation",
    Event.fetchSettled 0 (Response.json (promptBody "Describe your morning" "Speak for 2 minutes")),
    Event.clickPracticeRecordBtn, Event.mediaDenied 0]

/-- Recorder `r` has run its final task. -/
def Session.inactive (r : Nat) (σ : Session) : Prop :=
  ∃ rec, σ.recorders[r]? = some rec ∧ rec.state = RecorderState.inactive

/-- Example: the recording of `armedExample` has been reset with the retry button. -/
def resetExample : State :=
  (run (init blankPage 0) (armingEvents ++ [Event.clickRetryBtn])).getD (init blankPage 0)

/-- Text of `#practiceTranscriptionText`, the stored last transcription. -/
def State.lastTranscription (s : State) : String := s.dom.practiceTranscriptionText

/-- The task settles a `transcribePracticeAudio` call. -/
def settlesTranscription (s : State) : Event → Bool
  | Event.fetchSettled i _ => decide (s.pendingFetch[i]? = some Operation.transcribePracticeAudio)
  | _ => false

/-- No task of the list, run from `s`, settles a `transcribePracticeAudio` call. -/
def noTranscription : State → List Event → Bool
  | _, [] => true
  | s, e :: es =>
    !settlesTranscription s e &&
      match step s e with
      | some s1 => noTranscription s1 es
      | none => true

/-- Response body `{success: true, transcription: t}`. -/
def transcriptionBody (t : String) : JsVal :=
  JsVal.obj [("success", JsVal.bool true), ("transcription", JsVal.str t)]

/-- Tasks between a transcription and the next coaching request: the user changes
level and topic. -/
def retuningEvents : List Event :=
  [Event.inputPracticeLevel "advanced", Event.inputPracticeTopic "travel"]

/-- Example: the transcription `I get up at seven` has arrived in the practice
session of `practiceArmedExample`. -/
def transcribedExample : State :=
  transcribePracticeAudioResume (Response.json (transcriptionBody "I get up at seven"))
    practiceArmedExample

/-- Example: level and topic were changed after that transcription. -/
def retunedExample : State :=
  (run transcribedExample retuningEvents).getD (init blankPage 0)

/-! ## The analysis display as the specification words it

Each display slot shows the supplied field value when the field is present and a
fixed fallback when it is absent. -/

/-- The value `undefined`, which reading an absent field gives. -/
def JsVal.isUndefined : JsVal → Bool
  | JsVal.undefined => true
  | _ => false

/-- Text slot: the supplied value when present, the fallback when absent. -/
def slotText (supplied : JsVal) (fallback : String) : String :=
  if supplied.isUndefined then fallback else supplied.toStr

/-- List slot: the supplied items when present, the fallback items when absent. -/
def slotList (supplied : JsVal) (fallback : List String) : String :=
  match supplied with
  | JsVal.arr items => listItems items
  | _ => listItems (fallback.map JsVal.str)

/-- A text or number field is usable: absent, or a truthy value (a non-empty string,
a non-zero number). -/
def textFieldOk (v : JsVal) : Bool := v.isUndefined || v.truthy

/-- A list field is usable: absent, or a non-empty array. -/
def listFieldOk : JsVal → Bool
  | JsVal.undefined => true
  | JsVal.arr (_ :: _) => true
  | _ => false

/-- The field `advanced_words` is usable: absent, or an array. -/
def wordsFieldOk : JsVal → Bool
  | JsVal.undefined => true
  | JsVal.arr _ => true
  | _ => false

/-- Every recognized field of the analysis is usable. -/
def analysisOk (analysis : JsVal) : Bool :=
  textFieldOk (analysis.field "overall_grade") &&
  textFieldOk (analysis.field "cefr_level") &&
  textFieldOk (analysis.field "level_description") &&
  textFieldOk ((analysis.field "pronunciation").field "feedback") &&
  textFieldOk ((analysis.field "vocabulary").field "feedback") &&
  textFieldOk ((analysis.field "grammar").field "feedback") &&
  textFieldOk ((analysis.field "fluency").field "feedback") &&
  wordsFieldOk ((analysis.field "vocabulary").field "advanced_words") &&
  listFieldOk ((analysis.field "grammar").field "strengths") &&
  listFieldOk ((analysis.field "grammar").field "areas") &&
  textFieldOk (analysis.field "words_per_minute") &&
  textFieldOk ((analysis.field "fluency").field "filler_count") &&
  listFieldOk (analysis.field "pronunciation_plan") &&
  listFieldOk (analysis.field "vocabulary_plan") &&
  listFieldOk (analysis.field "grammar_plan") &&
  listFieldOk (analysis.field "fluency_plan") &&
  textFieldOk (analysis.field "next_level_path")

/-- The analysis panel as specified: every slot holds the supplied value or its
fallback; the slot `advancedWords`, which has no fallback, keeps its text when the
field is absent. -/
def specifiedAnalysis (analysis : JsVal) (d : Dom) : Dom :=
  { d with
    overallGrade := slotText (analysis.field "overall_grade") "5.0"
    cefrLevel := slotText (analysis.field "cefr_level") "B1"
    levelDescription := slotText (analysis.field "level_description") "Intermediate"
    pronunciationAnalysis := slotText ((analysis.field "pronunciation").field "feedback")
      ("Your pronunciation shows good clarity with room for improvement in stress patterns " ++
        "and intonation.")
    vocabularyAnalysis := slotText ((analysis.field "vocabulary").field "feedback")
      ("You demonstrate solid vocabulary usage. Focus on incorporating more sophisticated " ++
        "expressions and idiomatic language.")
    grammarAnalysis := slotText ((analysis.field "grammar").field "feedback")
      ("Your grammar foundation is strong. Work on complex sentence structures and advanced " ++
        "tense usage.")
    fluencyAnalysis := slotText ((analysis.field "fluency").field "feedback")
      ("Your speech flows naturally with minimal hesitation. Focus on reducing filler words " ++
        "and smoother transitions.")
    advancedWords :=
      match (analysis.field "vocabulary").field "advanced_words" with
      | JsVal.arr items => JsVal.joinWith ", " items
      | _ => d.advancedWords
    grammarStrengths := slotList ((analysis.field "grammar").field "strengths")
      ["Accurate basic tense usage", "Good sentence structure"]
    grammarAreas := slotList ((analysis.field "grammar").field "areas")
      ["Complex conditionals", "Advanced connectors"]
    speakingRate := slotText (analysis.field "words_per_minute") "145" ++ " words/minute"
    fillerCount := slotText ((analysis.field "fluency").field "filler_count") "5" ++ " instances"
    pronunciationPlan := slotList (analysis.field "pronunciation_plan")
      ["Practice tongue twisters daily for 10 minutes",
        "Record yourself reading and compare with native speakers",
        "Focus on word stress patterns"]
    vocabularyPlan := slotList (analysis.field "vocabulary_plan")
      ["Learn 5 advanced synonyms daily",
        "Study collocations and phrasal verbs",
        "Read academic articles in your field"]
    grammarPlan := slotList (analysis.field "grammar_plan")
      ["Practice conditional sentences daily",
        "Study advanced connectors",
        "Write complex sentences and get feedback"]
    fluencyPlan := slotList (analysis.field "fluency_plan")
      ["Practice speaking without filler words",
        "Use transition phrases between ideas",
        "Record yourself and identify patterns"]
    nextLevelPath := "<p>" ++ slotText (analysis.field "next_level_path")
      ("Continue practicing consistently to reach the next proficiency level. " ++
        "Focus on the priority areas identified above.") ++ "</p>"
    analysisResultsHidden := false }

/-- A state whose `advancedWords` slot shows text from an earlier analysis. -/
def shownWordsExample : State :=
  { init blankPage 0 with dom := { blankPage with advancedWords := "eloquent, meticulous" } }

/-- An analysis whose `advanced_words` is a string, not a list. -/
def wordsAsTextAnalysis : JsVal :=
  JsVal.obj [("vocabulary", JsVal.obj [("advanced_words", JsVal.str "eloquent")])]

/-- An analysis that reports no filler word and an empty list of strengths. -/
def zeroFillerAnalysis : JsVal :=
  JsVal.obj [("fluency", JsVal.obj [("filler_count", JsVal.num "0" Sign.zero)]),
    ("grammar", JsVal.obj [("strengths", JsVal.arr [])])]

/-- The fields of an analysis that supplies some of the recognized fields and lacks
the others. -/
def partialFields : List (String × JsVal) :=
  [("overall_grade", JsVal.str "7.5"), ("cefr_level", JsVal.str "C1"),
    ("words_per_minute", JsVal.num "132" Sign.pos),
    ("vocabulary", JsVal.obj [("advanced_words", JsVal.arr [JsVal.str "eloquent"])]),
    ("grammar_plan", JsVal.arr [JsVal.str "Revise the conditionals"])]

/-- The block ended by throwing. -/
def Completion.threw : Completion → Bool
  | Completion.normal _ => false
  | Completion.thrown _ => true

/-- Decimal text of a number, zero-padded to at least two digits: the fields of
the two ticker texts as the specification words them. -/
def twoDigits (n : Nat) : String :=
  if n < 10 then "0" ++ toString n else toString n

/-! # Theorems -/

/-! ### Frame lemmas: what leaves the session untouched -/

@[simp] theorem session_showToast (m : String) (t : ToastType) (s : State) :
    (showToast m t s).session = s.session := rfl

@[simp] theorem session_showLoading (m : String) (s : State) :
    (showLoading m s).session = s.session := rfl

@[simp] theorem session_hideLoading (s : State) : (hideLoading s).session = s.session := rfl

@[simp] theorem session_updateRecordingUI (b : Bool) (s : State) :
    (updateRecordingUI b s).session = s.session := rfl

@[simp] theorem session_stopRecordingTimer (s : State) :
    (stopRecordingTimer s).session = s.session := by
  unfold stopRecordingTimer; split <;> rfl

@[simp] theorem session_stopPracticeTimer (s : State) :
    (stopPracticeTimer s).session = s.session := by
  unfold stopPracticeTimer; split <;> rfl

@[simp] theorem session_startRecordingTimer (s : State) :
    (startRecordingTimer s).session = s.session := rfl

@[simp] theorem session_startPracticeTimer (s : State) :
    (startPracticeTimer s).session = s.session := rfl

@[simp] theorem session_displayTranscription (v : JsVal) (s : State) :
    (displayTranscription v s).session = s.session := rfl

@[simp] theorem session_displayAnalysis (a : JsVal) (s : State) :
    (displayAnalysis a s).state.session = s.session := by
  unfold displayAnalysis
  simp only []
  split
  · rfl
  · split <;> rfl

@[simp] theorem session_displayCoaching (a : JsVal) (s : State) :
    (displayCoaching a s).state.session = s.session := by
  unfold displayCoaching
  simp only []
  split
  · rfl
  · split
    · rfl
    · split <;> rfl

theorem session_transcribeAndAnalyzeTry (resp : Response) (s : State) :
    (transcribeAndAnalyzeTry resp s).state.session = s.session := by
  unfold transcribeAndAnalyzeTry
  cases resp with
  | rejected => rfl
  | unparseable => rfl
  | json result =>
    simp only []
    split
    · rfl
    · split
      · split
        · have h := session_displayAnalysis (result.field "analysis")
            (displayTranscription (result.field "transcription") (hideLoading s))
          split
          · rename_i heq; rw [heq] at h; simpa [Completion.state] using h
          · rename_i heq; rw [heq] at h; simpa [Completion.state] using h
        · rfl
      · rfl

theorem session_getNewPracticePromptTry (resp : Response) (s : State) :
    (getNewPracticePromptTry resp s).state.session = s.session := by
  unfold getNewPracticePromptTry
  cases resp with
  | rejected => rfl
  | unparseable => rfl
  | json result =>
    simp only []
    split
    · rfl
    · split
      · split <;> rfl
      · rfl

theorem session_transcribePracticeAudioTry (resp : Response) (s : State) :
    (transcribePracticeAudioTry resp s).state.session = s.session := by
  unfold transcribePracticeAudioTry
  cases resp with
  | rejected => rfl
  | unparseable => rfl
  | json result =>
    simp only []
    split
    · rfl
    · split <;> rfl

theorem session_getCoachingTry (resp : Response) (s : State) :
    (getCoachingTry resp s).state.session = s.session := by
  unfold getCoachingTry
  cases resp with
  | rejected => rfl
  | unparseable => rfl
  | json result =>
    simp only []
    split
    · rfl
    · split
      · exact (session_displayCoaching _ _).trans rfl
      · rfl

theorem session_catch (c : Completion) (msg : String) :
    (match c with
      | Completion.normal s => s
      | Completion.thrown s => showToast msg ToastType.error (hideLoading s)).session
      = c.state.session := by
  cases c <;> rfl

@[simp] theorem session_resumeFetch (op : Operation) (resp : Response) (s : State) :
    (resumeFetch op resp s).session = s.session := by
  cases op
  · exact (session_catch _ _).trans (session_transcribeAndAnalyzeTry resp s)
  · exact (session_catch _ _).trans (session_getNewPracticePromptTry resp s)
  · exact (session_catch _ _).trans (session_transcribePracticeAudioTry resp s)
  · exact (session_catch _ _).trans (session_getCoachingTry resp s)

@[simp] theorem session_transcribeAndAnalyze (b : Blob) (s : State) :
    (transcribeAndAnalyze b s).session = s.session := rfl

@[simp] theorem session_transcribePracticeAudio (b : Blob) (s : State) :
    (transcribePracticeAudio b s).session = s.session := rfl

@[simp] theorem session_processRecording (s : State) :
    (processRecording s).session = s.session := by
  unfold processRecording; simp only []; split <;> rfl

@[simp] theorem session_processPracticeRecording (s : State) :
    (processPracticeRecording s).session = s.session := by
  unfold processPracticeRecording; simp only []; split <;> rfl

@[simp] theorem session_runStopHandler (h : StopHandler) (s : State) :
    (runStopHandler h s).session = s.session := by
  cases h
  · exact session_processRecording s
  · exact session_processPracticeRecording s

@[simp] theorem session_getNewPracticePrompt (s : State) :
    (getNewPracticePrompt s).session = s.session := by
  unfold getNewPracticePrompt; split <;> rfl

@[simp] theorem session_selectPracticeType (t : String) (s : State) :
    (selectPracticeType t s).session = s.session := by
  unfold selectPracticeType
  simp only [session_showToast, session_getNewPracticePrompt]
  rfl

@[simp] theorem session_getCoaching (s : State) : (getCoaching s).session = s.session := by
  unfold getCoaching; simp only []; split <;> rfl

@[simp] theorem session_resetRecording (s : State) :
    (resetRecording s).session = s.session.apply Effect.reset := by
  unfold resetRecording
  show (updateRecordingUI false (stopRecordingTimer _)).session = _
  rw [session_updateRecordingUI, session_stopRecordingTimer]
  rfl

@[simp] theorem session_stopRecording (s : State) :
    (stopRecording s).session = s.session.apply Effect.stop := by
  unfold stopRecording Session.apply
  cases hm : s.mediaRecorder with
  | none => simp [State.session, hm]
  | some r =>
    by_cases hr : s.isRecording = true
    · simp only [hr, if_true, session_showToast, session_stopRecordingTimer,
        session_updateRecordingUI]
      simp [State.session, hm, hr]
    · simp [State.session, hm, hr]

theorem session_startAssessment (type : String) (s : State) :
    (startAssessment type s).session = s.session.apply (Effect.select type) := by
  show (showToast _ _ (resetRecording _)).session = _
  rw [session_showToast, session_resetRecording]; rfl

theorem session_resumeMedia_denied (c : MediaCaller) (s : State) :
    (resumeMedia c false s).session = s.session := by
  cases c
  · rfl
  · rfl
  · show (startPracticeTimer _).session = _
    rw [session_startPracticeTimer]
    rfl

theorem session_resumeMedia_granted (c : MediaCaller) (s : State) :
    (resumeMedia c true s).session = s.session.apply
      (match c with
        | MediaCaller.checkMicrophonePermission => Effect.probe
        | MediaCaller.startRecording => Effect.arm StopHandler.processRecording
        | MediaCaller.startPracticeRecording => Effect.arm StopHandler.processPracticeRecording) := by
  cases c
  · rfl
  · show (showToast _ _ (startRecordingTimer (updateRecordingUI true _))).session = _
    rw [session_showToast, session_startRecordingTimer, session_updateRecordingUI]
    rfl
  · show (startPracticeTimer _).session = _
    rw [session_startPracticeTimer]
    rfl

theorem session_ondataavailable (d : Blob) (s : State) :
    (ondataavailable d s).session = s.session.apply (Effect.chunk d) := by
  unfold ondataavailable
  by_cases hd : d.size > 0
  · simp only [hd, if_true, Session.apply]; rfl
  · simp only [hd, if_false, Session.apply]

theorem step_session (s s1 : State) (e : Event) (h : step s e = some s1) :
    s1.session = s.session.apply (effectOf s e) := by
  cases e with
  | clickNavLink target =>
    simp only [step, Option.some.injEq] at h
    subst h
    unfold showSection effectOf
    by_cases ht : target = "assessment"
    · simp only [ht, if_true]
      show (resetRecording _).session = _
      rw [session_resetRecording]; rfl
    · simp only [ht, if_false]
      by_cases hp : target = "practice"
      · simp only [hp, if_true]; rfl
      · simp only [hp, if_false]; rfl
  | clickStartAssessmentBtn =>
    simp only [step, Option.some.injEq] at h
    subst h
    show (resetRecording _).session = _
    rw [session_resetRecording]; rfl
  | clickStartPracticeBtn =>
    simp only [step, Option.some.injEq] at h
    subst h; rfl
  | clickQuickAssessmentBtn =>
    simp only [step, Option.some.injEq] at h
    subst h
    exact session_startAssessment "quick" s
  | clickComprehensiveAssessmentBtn =>
    simp only [step, Option.some.injEq] at h
    subst h
    exact session_startAssessment "comprehensive" s
  | clickTopicAssessmentBtn =>
    simp only [step, Option.some.injEq] at h
    subst h
    show (showToast _ _ (resetRecording _)).session = _
    rw [session_showToast, session_resetRecording]; rfl
  | clickRecordBtn =>
    simp only [step, Option.some.injEq] at h
    subst h
    unfold toggleRecording effectOf
    split
    · exact session_stopRecording s
    · rfl
  | clickRetryBtn =>
    simp only [step, Option.some.injEq] at h
    subst h
    exact session_resetRecording s
  | clickGoToPracticeBtn =>
    simp only [step, Option.some.injEq] at h
    subst h; rfl
  | clickRetakeAssessmentBtn =>
    simp only [step, Option.some.injEq] at h
    subst h
    show (showToast _ _ _).session = _
    rw [session_showToast]
    show (resetRecording s).session = _
    exact session_resetRecording s
  | clickPracticeCard practiceType =>
    simp only [step, Option.some.injEq] at h
    subst h
    split
    · exact session_selectPracticeType _ _
    · rfl
  | clickPracticeRecordBtn =>
    simp only [step, Option.some.injEq] at h
    subst h
    unfold togglePracticeRecording effectOf
    split
    · simp only [session_stopPracticeTimer]
      exact session_stopRecording s
    · rfl
  | clickGetNewPromptBtn =>
    simp only [step, Option.some.injEq] at h
    subst h; exact session_getNewPracticePrompt s
  | clickGetCoachingBtn =>
    simp only [step, Option.some.injEq] at h
    subst h; exact session_getCoaching s
  | clickContinuePracticeBtn =>
    simp only [step, Option.some.injEq] at h
    subst h; exact session_getNewPracticePrompt s
  | clickChangePracticeTypeBtn =>
    simp only [step, Option.some.injEq] at h
    subst h; rfl
  | inputAssessmentTopic value =>
    simp only [step, Option.some.injEq] at h
    subst h; rfl
  | inputPracticeLevel value =>
    simp only [step, Option.some.injEq] at h
    subst h; rfl
  | inputPracticeTopic value =>
    simp only [step, Option.some.injEq] at h
    subst h; rfl
  | mediaGranted i =>
    simp only [step] at h
    cases hp : s.pendingMedia[i]? with
    | none => simp [hp] at h
    | some c =>
      simp only [hp, Option.some.injEq] at h
      subst h
      rw [session_resumeMedia_granted]
      simp only [effectOf, hp]
      cases c <;> rfl
  | mediaDenied i =>
    simp only [step] at h
    cases hp : s.pendingMedia[i]? with
    | none => simp [hp] at h
    | some c =>
      simp only [hp, Option.some.injEq] at h
      subst h
      rw [session_resumeMedia_denied]
      rfl
  | dataAvailable r data =>
    simp only [step] at h
    cases hp : s.recorders[r]? with
    | none => simp [hp] at h
    | some rec =>
      simp only [hp] at h
      split at h
      · simp only [Option.some.injEq] at h
        subst h
        exact session_ondataavailable data s
      · simp at h
  | recorderStopped r data =>
    simp only [step] at h
    cases hp : s.recorders[r]? with
    | none => simp [hp] at h
    | some rec =>
      simp only [hp] at h
      split at h
      · simp only [Option.some.injEq] at h
        subst h
        rw [session_runStopHandler]
        unfold effectOf Session.apply ondataavailable
        simp only [State.session, hp]
        split <;> simp_all
      · simp at h
  | fetchSettled i resp =>
    simp only [step] at h
    cases hp : s.pendingFetch[i]? with
    | none => simp [hp] at h
    | some op =>
      simp only [hp, Option.some.injEq] at h
      subst h
      rw [session_resumeFetch]
      rfl
  | intervalFired id =>
    simp only [step] at h
    cases hp : s.intervals[id]? with
    | none => simp [hp] at h
    | some iv =>
      simp only [hp] at h
      split at h
      · split at h
        · simp only [Option.some.injEq] at h
          subst h; rfl
        · simp only [Option.some.injEq] at h
          subst h; rfl
      · simp at h
  | clockAdvanced ms =>
    simp only [step, Option.some.injEq] at h
    subst h; rfl

/-! ### Invariants of the session along a run -/

theorem step_enabled (s s1 : State) (e : Event) (h : step s e = some s1) :
    (effectOf s e).enabled s.session := by
  cases e with
  | recorderStopped r data =>
    simp only [step] at h
    cases hp : s.recorders[r]? with
    | none => simp [hp] at h
    | some rec =>
      simp only [hp] at h
      split at h
      · rename_i hs
        exact ⟨rec, hp, hs⟩
      · simp at h
  | clickNavLink target =>
    by_cases ht : target = "assessment" <;> simp [effectOf, ht, Effect.enabled]
  | clickRecordBtn =>
    by_cases ht : s.isRecording = true <;> simp [effectOf, ht, Effect.enabled]
  | clickPracticeRecordBtn =>
    by_cases ht : s.isRecording = true <;> simp [effectOf, ht, Effect.enabled]
  | mediaGranted i =>
    cases hp : s.pendingMedia[i]? with
    | none => simp [effectOf, hp, Effect.enabled]
    | some c => cases c <;> simp [effectOf, hp, Effect.enabled]
  | _ => simp [effectOf, Effect.enabled]

theorem run_invariant (P : State → Prop)
    (hP : ∀ s e s1, P s → step s e = some s1 → P s1) :
    ∀ (evs : List Event) (s s1 : State), P s → run s evs = some s1 → P s1 := by
  intro evs
  induction evs with
  | nil =>
    intro s s1 hs h
    simp only [run, Option.some.injEq] at h
    exact h ▸ hs
  | cons e es ih =>
    intro s s1 hs h
    simp only [run] at h
    cases hstep : step s e with
    | none => simp [hstep] at h
    | some s2 =>
      simp only [hstep] at h
      exact ih s2 s1 (hP s e s2 hs hstep) h

theorem session_invariant (P : Session → Prop)
    (hP : ∀ σ eff, P σ → Effect.enabled σ eff → P (σ.apply eff))
    (evs : List Event) (s s1 : State) (hs : P s.session) (h : run s evs = some s1) :
    P s1.session := by
  refine run_invariant (fun s => P s.session) ?_ evs s s1 hs h
  intro s e s1 hs hstep
  rw [step_session s s1 e hstep]
  exact hP _ _ hs (step_enabled s s1 e hstep)

theorem getElem?_append_of_some {α : Type} (l : List α) (a b : α) (i : Nat)
    (h : l[i]? = some b) : (l ++ [a])[i]? = some b := by
  have hi : i < l.length := by
    rcases List.getElem?_eq_some_iff.mp h with ⟨hi, _⟩; exact hi
  rw [List.getElem?_append_left hi]; exact h

theorem tracked_apply (σ : Session) (eff : Effect) (h : σ.tracked) (he : eff.enabled σ) :
    (σ.apply eff).tracked := by
  cases eff with
  | none => exact h
  | reset => intro hr; simp [Session.apply] at hr
  | select type => intro hr; simp [Session.apply] at hr
  | stop =>
    simp only [Session.apply]
    cases hm : σ.mediaRecorder with
    | none => simpa [hm] using h
    | some r =>
      by_cases hr : σ.isRecording = true
      · simp only [hr, if_true]
        intro hr2; simp at hr2
      · simp only [hr, if_false]; exact h
  | arm onstop =>
    intro _
    refine ⟨σ.recorders.length, Recorder.mk σ.streams.length RecorderState.recording onstop,
      rfl, ?_, rfl, ?_⟩
    · simp [Session.apply]
    · simp [Session.apply]
  | probe =>
    intro hr
    obtain ⟨r, rec, h1, h2, h3, h4⟩ := h hr
    exact ⟨r, rec, h1, h2, h3, getElem?_append_of_some _ _ _ _ h4⟩
  | chunk data =>
    simp only [Session.apply]
    split
    · exact h
    · exact h
  | stopped r data =>
    obtain ⟨rec0, hrec0, hst⟩ := he
    intro hr
    simp only [Session.apply, hrec0] at hr ⊢
    obtain ⟨r1, rec1, h1, h2, h3, h4⟩ := h hr
    refine ⟨r1, rec1, h1, ?_, h3, h4⟩
    have hne : r ≠ r1 := by
      intro heq
      subst heq
      rw [hrec0] at h2
      simp only [Option.some.injEq] at h2
      subst h2
      rw [hst] at h3
      exact absurd h3 (by decide)
    show (σ.recorders.set r _)[r1]? = some rec1
    rw [List.getElem?_set_ne hne]; exact h2

theorem tracked_reachable (page : Dom) (now : Nat) (evs : List Event) (s : State)
    (h : run (init page now) evs = some s) : s.session.tracked :=
  session_invariant Session.tracked tracked_apply evs (init page now) s
    (by intro hr; simp [init, checkMicrophonePermission, showSection, State.session] at hr) h

theorem getElem?_stopRecorder_ne (r r0 : Nat) (recorders : List Recorder) (hne : r0 ≠ r) :
    (stopRecorder r0 recorders)[r]? = recorders[r]? := by
  unfold stopRecorder
  split
  · split
    · rw [List.getElem?_set_ne hne]
    · rfl
  · rfl

theorem orphan_apply (r : Nat) (σ : Session) (eff : Effect) (h : σ.orphan r)
    (he : eff.enabled σ) : (σ.apply eff).orphan r := by
  obtain ⟨⟨rec, hrec, hst⟩, hcur⟩ := h
  cases eff with
  | none => exact ⟨⟨rec, hrec, hst⟩, hcur⟩
  | reset => exact ⟨⟨rec, hrec, hst⟩, fun hr => by simp [Session.apply] at hr⟩
  | select type => exact ⟨⟨rec, hrec, hst⟩, fun hr => by simp [Session.apply] at hr⟩
  | stop =>
    simp only [Session.apply]
    cases hm : σ.mediaRecorder with
    | none => exact ⟨⟨rec, hrec, hst⟩, hcur⟩
    | some r0 =>
      by_cases hr : σ.isRecording = true
      · simp only [hr, if_true]
        have hne : r0 ≠ r := by
          intro heq
          exact hcur hr (by rw [hm, heq])
        refine ⟨⟨rec, ?_, hst⟩, fun hr2 => by simp at hr2⟩
        show (stopRecorder r0 σ.recorders)[r]? = some rec
        rw [getElem?_stopRecorder_ne r r0 _ hne]; exact hrec
      · simp only [hr, if_false]
        exact ⟨⟨rec, hrec, hst⟩, hcur⟩
  | arm onstop =>
    have hlt : r < σ.recorders.length := by
      rcases List.getElem?_eq_some_iff.mp hrec with ⟨hi, _⟩; exact hi
    refine ⟨⟨rec, getElem?_append_of_some _ _ _ _ hrec, hst⟩, ?_⟩
    intro _ heq
    simp only [Session.apply, Option.some.injEq] at heq
    omega
  | probe => exact ⟨⟨rec, hrec, hst⟩, hcur⟩
  | chunk data =>
    simp only [Session.apply]
    split
    · exact ⟨⟨rec, hrec, hst⟩, hcur⟩
    · exact ⟨⟨rec, hrec, hst⟩, hcur⟩
  | stopped r1 data =>
    obtain ⟨rec1, hrec1, hst1⟩ := he
    have hne : r1 ≠ r := by
      intro heq
      subst heq
      rw [hrec1] at hrec
      simp only [Option.some.injEq] at hrec
      subst hrec
      rw [hst1] at hst
      exact absurd hst (by decide)
    simp only [Session.apply, hrec1]
    refine ⟨⟨rec, ?_, hst⟩, hcur⟩
    show (σ.recorders.set r1 _)[r]? = some rec
    rw [List.getElem?_set_ne hne]; exact hrec

theorem handlerIs_stopRecorder (r r0 : Nat) (h : StopHandler) (recorders : List Recorder)
    (hh : ∃ rec, recorders[r]? = some rec ∧ rec.onstop = h) :
    ∃ rec, (stopRecorder r0 recorders)[r]? = some rec ∧ rec.onstop = h := by
  obtain ⟨rec, hrec, ho⟩ := hh
  by_cases hne : r0 = r
  · subst hne
    unfold stopRecorder
    rw [hrec]
    simp only []
    split
    · have hlt : r0 < recorders.length := by
        rcases List.getElem?_eq_some_iff.mp hrec with ⟨hi, _⟩; exact hi
      exact ⟨_, List.getElem?_set_self hlt, ho⟩
    · exact ⟨rec, hrec, ho⟩
  · exact ⟨rec, by rw [getElem?_stopRecorder_ne r r0 _ hne]; exact hrec, ho⟩

theorem handlerIs_apply (r : Nat) (h : StopHandler) (σ : Session) (eff : Effect)
    (hh : σ.handlerIs r h) : (σ.apply eff).handlerIs r h := by
  cases eff with
  | none => exact hh
  | reset => exact hh
  | select type => exact hh
  | stop =>
    simp only [Session.apply]
    cases hm : σ.mediaRecorder with
    | none => exact hh
    | some r0 =>
      by_cases hr : σ.isRecording = true
      · simp only [hr, if_true]
        exact handlerIs_stopRecorder r r0 h _ hh
      · simp only [hr, if_false]; exact hh
  | arm onstop =>
    obtain ⟨rec, hrec, ho⟩ := hh
    exact ⟨rec, getElem?_append_of_some _ _ _ _ hrec, ho⟩
  | probe => exact hh
  | chunk data =>
    simp only [Session.apply]
    split
    · exact hh
    · exact hh
  | stopped r1 data =>
    obtain ⟨rec, hrec, ho⟩ := hh
    simp only [Session.apply]
    cases hr1 : σ.recorders[r1]? with
    | none => exact ⟨rec, hrec, ho⟩
    | some rec1 =>
      simp only []
      by_cases hne : r1 = r
      · subst hne
        rw [hrec] at hr1
        simp only [Option.some.injEq] at hr1
        subst hr1
        have hlt : r1 < σ.recorders.length := by
          rcases List.getElem?_eq_some_iff.mp hrec with ⟨hi, _⟩; exact hi
        exact ⟨_, List.getElem?_set_self hlt, ho⟩
      · refine ⟨rec, ?_, ho⟩
        show (σ.recorders.set r1 _)[r]? = some rec
        rw [List.getElem?_set_ne hne]; exact hrec

theorem kind_step (s s1 : State) (e : Event) (h : step s e = some s1)
    (hq : selectsAssessment e = false) :
    s1.currentAssessmentType = s.currentAssessmentType := by
  have hs := congrArg Session.currentAssessmentType (step_session s s1 e h)
  have key : ∀ eff : Effect, (∀ t, eff ≠ Effect.select t) →
      (s.session.apply eff).currentAssessmentType = s.session.currentAssessmentType := by
    intro eff hne
    cases eff with
    | select t => exact absurd rfl (hne t)
    | stop =>
      simp only [Session.apply]
      split
      · split <;> rfl
      · rfl
    | chunk d => simp only [Session.apply]; split <;> rfl
    | stopped r d => simp only [Session.apply]; split <;> rfl
    | _ => rfl
  rw [key] at hs
  · exact hs
  · intro t
    cases e with
    | clickQuickAssessmentBtn => simp [selectsAssessment] at hq
    | clickComprehensiveAssessmentBtn => simp [selectsAssessment] at hq
    | clickTopicAssessmentBtn => simp [selectsAssessment] at hq
    | clickNavLink target =>
      by_cases ht : target = "assessment" <;> simp [effectOf, ht]
    | clickRecordBtn =>
      by_cases ht : s.isRecording = true <;> simp [effectOf, ht]
    | clickPracticeRecordBtn =>
      by_cases ht : s.isRecording = true <;> simp [effectOf, ht]
    | mediaGranted i =>
      cases hp : s.pendingMedia[i]? with
      | none => simp [effectOf, hp]
      | some c => cases c <;> simp [effectOf, hp]
    | _ => simp [effectOf]

theorem chunks_step (s s1 : State) (e : Event) (h : step s e = some s1)
    (hq : quietEvent e = true) :
    s1.audioChunks = s.audioChunks ++ nonEmptyChunks (deliveredChunks [e]) := by
  have hs : s1.audioChunks = (s.session.apply (effectOf s e)).audioChunks :=
    congrArg Session.audioChunks (step_session s s1 e h)
  have hstop : (s.session.apply Effect.stop).audioChunks = s.audioChunks := by
    simp only [Session.apply]
    split
    · split <;> rfl
    · rfl
  cases e with
  | clickNavLink target =>
    have ht : target ≠ "assessment" := by simpa [quietEvent] using hq
    simpa [effectOf, ht, Session.apply, deliveredChunks, nonEmptyChunks] using hs
  | clickStartAssessmentBtn => simp [quietEvent] at hq
  | clickQuickAssessmentBtn => simp [quietEvent] at hq
  | clickComprehensiveAssessmentBtn => simp [quietEvent] at hq
  | clickTopicAssessmentBtn => simp [quietEvent] at hq
  | clickRetryBtn => simp [quietEvent] at hq
  | clickRetakeAssessmentBtn => simp [quietEvent] at hq
  | mediaGranted i => simp [quietEvent] at hq
  | clickRecordBtn =>
    by_cases ht : s.isRecording = true
    · simp only [effectOf, ht, if_true] at hs
      rw [hs, hstop]; simp [deliveredChunks, nonEmptyChunks]
    · simp only [effectOf, ht, if_false] at hs
      rw [hs]; simp [deliveredChunks, nonEmptyChunks, Session.apply, State.session]
  | clickPracticeRecordBtn =>
    by_cases ht : s.isRecording = true
    · simp only [effectOf, ht, if_true] at hs
      rw [hs, hstop]; simp [deliveredChunks, nonEmptyChunks]
    · simp only [effectOf, ht, if_false] at hs
      rw [hs]; simp [deliveredChunks, nonEmptyChunks, Session.apply, State.session]
  | dataAvailable r data =>
    rw [hs]
    simp only [effectOf, Session.apply, deliveredChunks, nonEmptyChunks, List.filter]
    by_cases hd : data.size > 0 <;> simp [hd, State.session]
  | recorderStopped r data =>
    rw [hs]
    simp only [effectOf, Session.apply, deliveredChunks, nonEmptyChunks, List.filter]
    cases hr : s.session.recorders[r]? with
    | none =>
      simp only [step] at h
      have hr2 : s.recorders[r]? = none := hr
      simp [hr2] at h
    | some rec =>
      by_cases hd : data.size > 0 <;> simp [hd, State.session]
  | _ =>
    rw [hs]; simp [effectOf, deliveredChunks, nonEmptyChunks, Session.apply, State.session]

/-! ### What the single methods leave alone -/

theorem stopRecordingTimer_frame (s : State) :
    ∃ iv rt, stopRecordingTimer s = { s with intervals := iv, recordingTimer := rt } := by
  unfold stopRecordingTimer
  split
  · exact ⟨_, _, rfl⟩
  · exact ⟨s.intervals, s.recordingTimer, rfl⟩

theorem stopPracticeTimer_frame (s : State) :
    ∃ iv rt, stopPracticeTimer s = { s with intervals := iv, practiceTimer := rt } := by
  unfold stopPracticeTimer
  split
  · exact ⟨_, _, rfl⟩
  · exact ⟨s.intervals, s.practiceTimer, rfl⟩

theorem stopRecording_frame (s : State) :
    (stopRecording s).pendingMedia = s.pendingMedia ∧
    (stopRecording s).recordingStartTime = s.recordingStartTime ∧
    (stopRecording s).requests = s.requests ∧
    (stopRecording s).pendingFetch = s.pendingFetch ∧
    (stopRecording s).calls = s.calls := by
  unfold stopRecording
  split
  · split
    · simp only [showToast]
      obtain ⟨iv, rt, h⟩ := stopRecordingTimer_frame
        (updateRecordingUI false { s with
          recorders := stopRecorder _ s.recorders
          streams := stopTracks _ (stopRecorder _ s.recorders) s.streams
          isRecording := false })
      rw [h]
      simp [updateRecordingUI]
    · simp
  · simp

theorem togglePracticeRecording_recording (s : State) (hrec : s.isRecording = true) :
    ∃ d iv rt, togglePracticeRecording s
      = { stopRecording s with dom := d, intervals := iv, practiceTimer := rt } := by
  unfold togglePracticeRecording
  simp only [hrec, if_true]
  obtain ⟨iv, rt, hpt⟩ := stopPracticeTimer_frame
    { stopRecording s with dom := { (stopRecording s).dom with
        practiceRecordBtnStop := false
        practiceRecordingStatusHidden := true } }
  exact ⟨_, iv, rt, hpt⟩

theorem stopRecording_audioChunks (s : State) :
    (stopRecording s).audioChunks = s.audioChunks := by
  have h : (stopRecording s).audioChunks = (s.session.apply Effect.stop).audioChunks :=
    congrArg Session.audioChunks (session_stopRecording s)
  rw [h]
  simp only [Session.apply]
  split
  · split <;> rfl
  · rfl

theorem stopRecording_currentAssessmentType (s : State) :
    (stopRecording s).currentAssessmentType = s.currentAssessmentType := by
  have h : (stopRecording s).currentAssessmentType
      = (s.session.apply Effect.stop).currentAssessmentType :=
    congrArg Session.currentAssessmentType (session_stopRecording s)
  rw [h]
  simp only [Session.apply]
  split
  · split <;> rfl
  · rfl

theorem stopRecording_isRecording (s : State) (h : s.session.tracked) :
    (stopRecording s).isRecording = false := by
  have hs : (stopRecording s).isRecording = (s.session.apply Effect.stop).isRecording :=
    congrArg Session.isRecording (session_stopRecording s)
  rw [hs]
  by_cases hr : s.isRecording = true
  · obtain ⟨r, rec, h1, _, _, _⟩ := h hr
    have e2 : s.session.isRecording = true := hr
    simp only [Session.apply, h1, e2, if_true]
  · have hf : s.isRecording = false := by simpa using hr
    simp only [Session.apply]
    split
    · split
      · rfl
      · exact hf
    · exact hf

theorem ondataavailable_empty (data : Blob) (s : State) (h : data.size = 0) :
    ondataavailable data s = s := by
  unfold ondataavailable
  simp [h]

theorem runStopHandler_empty (handler : StopHandler) (s : State) (h : s.audioChunks = []) :
    runStopHandler handler s
      = showToast (noAudioMessage handler) ToastType.error
          { s with calls := s.calls ++ [handlerCall handler] } := by
  cases handler
  · simp [runStopHandler, processRecording, h, noAudioMessage, handlerCall]
  · simp [runStopHandler, processPracticeRecording, h, noAudioMessage, handlerCall]

theorem stopRecording_session_armed (s : State) (r : Nat) (rec : Recorder)
    (h1 : s.mediaRecorder = some r) (h2 : s.recorders[r]? = some rec)
    (h3 : rec.state = RecorderState.recording) (hrec : s.isRecording = true) :
    (stopRecording s).session =
      { s.session with
        recorders := s.recorders.set r { rec with state := RecorderState.stopping }
        streams := s.streams.set rec.stream false
        isRecording := false } := by
  rw [session_stopRecording]
  have hlt : r < s.recorders.length := by
    rcases List.getElem?_eq_some_iff.mp h2 with ⟨hi, _⟩; exact hi
  simp only [Session.apply]
  have e1 : s.session.mediaRecorder = some r := h1
  have e2 : s.session.isRecording = true := hrec
  have e3 : stopRecorder r s.session.recorders
      = s.recorders.set r { rec with state := RecorderState.stopping } := by
    unfold stopRecorder
    show (match s.recorders[r]? with
      | some rec => if rec.state = RecorderState.recording then
          s.recorders.set r { rec with state := RecorderState.stopping } else s.recorders
      | none => s.recorders) = _
    rw [h2]
    simp [h3]
  rw [e1]
  simp only [e2, if_true, e3]
  have e4 : stopTracks r (s.recorders.set r { rec with state := RecorderState.stopping })
      s.session.streams = s.streams.set rec.stream false := by
    unfold stopTracks
    rw [List.getElem?_set_self hlt]
    rfl
  rw [e4]

theorem stopRecordingTimer_toasts (s : State) : (stopRecordingTimer s).toasts = s.toasts := by
  unfold stopRecordingTimer; split <;> rfl

theorem stopRecording_toasts_armed (s : State) (r : Nat) (h1 : s.mediaRecorder = some r)
    (hrec : s.isRecording = true) :
    (stopRecording s).toasts
      = s.toasts ++ [Toast.mk "Recording stopped! Processing..." ToastType.info] := by
  unfold stopRecording
  rw [h1]
  simp only [hrec, if_true]
  show (stopRecordingTimer _).toasts ++ [_] = _
  rw [stopRecordingTimer_toasts]
  rfl

theorem finalize_empty (x : State) (r : Nat) (rec : Recorder) (last : Blob)
    (hx : x.recorders[r]? = some rec) (hst : rec.state = RecorderState.stopping)
    (hempty : x.audioChunks = []) (hlast : last.size = 0) :
    ∃ s2, step x (Event.recorderStopped r last) = some s2 ∧ s2.requests = x.requests ∧
      s2.pendingFetch = x.pendingFetch ∧ s2.isRecording = x.isRecording ∧
      s2.toasts = x.toasts ++ [Toast.mk (noAudioMessage rec.onstop) ToastType.error] ∧
      s2.calls = x.calls ++ [handlerCall rec.onstop] := by
  have hstep : step x (Event.recorderStopped r last)
      = some (runStopHandler rec.onstop { ondataavailable last x with
          recorders := (ondataavailable last x).recorders.set r
            { rec with state := RecorderState.inactive } }) := by
    simp only [step, hx, hst, if_true]
  rw [ondataavailable_empty last x hlast] at hstep
  have key := runStopHandler_empty rec.onstop
    { x with recorders := x.recorders.set r { rec with state := RecorderState.inactive } } hempty
  refine ⟨_, hstep, ?_⟩
  rw [key]
  exact ⟨rfl, rfl, rfl, rfl, rfl⟩

theorem runStopHandler_requests (onstop : StopHandler) (s : State) :
    (runStopHandler onstop s).requests
      = s.requests ++ (if s.audioChunks = [] then []
          else [dispatched onstop (Blob.ofParts s.audioChunks) s]) := by
  cases onstop
  · by_cases h : s.audioChunks = []
    · simp [runStopHandler, processRecording, h, showToast]
    · simp [runStopHandler, processRecording, h, transcribeAndAnalyze, showLoading, dispatched,
        typeTag]
  · by_cases h : s.audioChunks = []
    · simp [runStopHandler, processPracticeRecording, h, showToast]
    · simp [runStopHandler, processPracticeRecording, h, transcribePracticeAudio, showLoading,
        dispatched]

theorem resetRecording_frame (s : State) :
    (resetRecording s).isRecording = false ∧ (resetRecording s).audioChunks = [] ∧
    (resetRecording s).recordingTimer = none ∧
    (∀ id iv, s.recordingTimer = some id → (resetRecording s).intervals[id]? = some iv →
      iv.active = false) ∧
    (resetRecording s).toasts = s.toasts ∧ (resetRecording s).requests = s.requests ∧
    (resetRecording s).pendingFetch = s.pendingFetch ∧ (resetRecording s).calls = s.calls ∧
    (resetRecording s).mediaRecorder = s.mediaRecorder ∧
    (resetRecording s).recorders = s.recorders := by
  unfold resetRecording
  cases ht : s.recordingTimer with
  | none =>
    simp [stopRecordingTimer, updateRecordingUI, ht]
  | some id =>
    simp only [stopRecordingTimer, updateRecordingUI, ht, and_self, true_and, and_true]
    intro id1 iv hid hiv
    simp only [Option.some.injEq] at hid
    subst hid
    simp only [clearInterval] at hiv
    cases hi : s.intervals[id]? with
    | none => simp [hi] at hiv
    | some iv0 =>
      have hlt : id < s.intervals.length := by
        rcases List.getElem?_eq_some_iff.mp hi with ⟨h1, _⟩; exact h1
      simp only [hi] at hiv
      rw [List.getElem?_set_self hlt] at hiv
      simp only [Option.some.injEq] at hiv
      rw [← hiv]

theorem resetRecording_practiceTimer (s : State) :
    (resetRecording s).practiceTimer = s.practiceTimer := by
  unfold resetRecording stopRecordingTimer
  cases s.recordingTimer <;> rfl

/-! ### The buffer -/

theorem deliver_eq (chunks : List Blob) (s : State) :
    deliver chunks s = { s with audioChunks := s.audioChunks ++ nonEmptyChunks chunks } := by
  induction chunks generalizing s with
  | nil => simp [deliver, nonEmptyChunks]
  | cons c cs ih =>
    have hstep : deliver (c :: cs) s = deliver cs (ondataavailable c s) := rfl
    rw [hstep, ih]
    unfold ondataavailable
    by_cases hc : c.size > 0
    · simp [hc, nonEmptyChunks, List.filter]
    · simp [hc, nonEmptyChunks, List.filter]

theorem nonEmptyChunks_append (a b : List Blob) :
    nonEmptyChunks (a ++ b) = nonEmptyChunks a ++ nonEmptyChunks b := by
  simp [nonEmptyChunks]

theorem armWith_fields (onstop : StopHandler) (s : State) :
    (armWith onstop s).audioChunks = [] ∧ (armWith onstop s).requests = s.requests ∧
    (armWith onstop s).currentAssessmentType = s.currentAssessmentType := by
  cases onstop
  · refine ⟨rfl, rfl, rfl⟩
  · refine ⟨rfl, rfl, rfl⟩

theorem ofParts_nonEmptyChunks_bytes (chunks : List Blob) :
    (Blob.ofParts (nonEmptyChunks chunks)).bytes = (chunks.map Blob.bytes).flatten := by
  induction chunks with
  | nil => rfl
  | cons c cs ih =>
    simp only [Blob.ofParts, nonEmptyChunks, List.filter] at ih ⊢
    by_cases hc : c.size > 0
    · simp [hc, ih]
    · have h0 : c.bytes = [] := by
        have : c.bytes.length = 0 := by simpa [Blob.size] using hc
        exact List.length_eq_zero.mp this
      simp [hc, ih, h0]

theorem length_flatten_bytes (chunks : List Blob) :
    ((chunks.map Blob.bytes).flatten).length = (chunks.map Blob.size).sum := by
  induction chunks with
  | nil => rfl
  | cons c cs ih => simp [Blob.size, ih]

theorem chunks_run (evs : List Event) :
    ∀ (s s1 : State), run s evs = some s1 → (∀ e ∈ evs, quietEvent e = true) →
      s1.audioChunks = s.audioChunks ++ nonEmptyChunks (deliveredChunks evs) := by
  induction evs with
  | nil =>
    intro s s1 h _
    simp only [run, Option.some.injEq] at h
    subst h
    simp [deliveredChunks, nonEmptyChunks]
  | cons e es ih =>
    intro s s1 h hq
    simp only [run] at h
    cases hstep : step s e with
    | none => simp [hstep] at h
    | some s2 =>
      simp only [hstep] at h
      have h1 := chunks_step s s2 e hstep (hq e (List.mem_cons_self _ _))
      have h2 := ih s2 s1 h (fun e1 he1 => hq e1 (List.mem_cons_of_mem _ he1))
      rw [h2, h1, List.append_assoc, ← nonEmptyChunks_append]
      congr 2
      cases e <;> rfl

theorem kind_run (evs : List Event) :
    ∀ (s s1 : State), run s evs = some s1 → (∀ e ∈ evs, selectsAssessment e = false) →
      s1.currentAssessmentType = s.currentAssessmentType := by
  induction evs with
  | nil =>
    intro s s1 h _
    simp only [run, Option.some.injEq] at h
    subst h; rfl
  | cons e es ih =>
    intro s s1 h hq
    simp only [run] at h
    cases hstep : step s e with
    | none => simp [hstep] at h
    | some s2 =>
      simp only [hstep] at h
      rw [ih s2 s1 h (fun e1 he1 => hq e1 (List.mem_cons_of_mem _ he1))]
      exact kind_step s s2 e hstep (hq e (List.mem_cons_self _ _))

theorem armWith_session (onstop : StopHandler) (s : State) :
    (armWith onstop s).session = s.session.apply (Effect.arm onstop) := by
  cases onstop
  · exact session_resumeMedia_granted MediaCaller.startRecording s
  · exact session_resumeMedia_granted MediaCaller.startPracticeRecording s

theorem armWith_handlerIs (onstop : StopHandler) (s : State) :
    (armWith onstop s).session.handlerIs s.recorders.length onstop := by
  rw [armWith_session]
  refine ⟨Recorder.mk s.streams.length RecorderState.recording onstop, ?_, rfl⟩
  simp [Session.apply, State.session]

/-! ### Loading overlay -/

theorem displayAnalysis_loading (a : JsVal) (s : State) :
    (displayAnalysis a s).state.dom.loadingOverlayHidden = s.dom.loadingOverlayHidden := by
  unfold displayAnalysis
  simp only []
  split
  · rfl
  · split <;> rfl

theorem displayCoaching_loading (a : JsVal) (s : State) :
    (displayCoaching a s).state.dom.loadingOverlayHidden = s.dom.loadingOverlayHidden := by
  unfold displayCoaching
  simp only []
  split
  · rfl
  · split
    · rfl
    · split <;> rfl

theorem catch_hides_loading (c : Completion) (msg : String)
    (h : ∀ s, c = Completion.normal s → s.dom.loadingOverlayHidden = true) :
    (match c with
      | Completion.normal s => s
      | Completion.thrown s =>
        showToast msg ToastType.error (hideLoading s)).dom.loadingOverlayHidden = true := by
  cases c with
  | normal s => exact h s rfl
  | thrown s => rfl

/-! ## Claims -/

/-- C1 (counterexample): an arm issued while a recording is armed is not rejected.
After two clicks on the record button before the first stream is granted, the first
grant arms recorder 0 (one armed recorder, buffer `[[1, 2]]`, start time 0); the
second grant then replaces `mediaRecorder` by recorder 1, empties `audioChunks`,
moves `recordingStartTime` to 500 and acquires a third stream, and two recorders
are armed at once. -/
theorem C1_second_arm_not_rejected :
    (run (init blankPage 0) doubleClickEvents).map
        (fun s => (s.isRecording, s.mediaRecorder, s.audioChunks, s.recordingStartTime))
      = some (true, some 0, [Blob.mk [1, 2]], some 0) ∧
    (run (init blankPage 0) doubleClickEvents).map
        (fun s => ((armedRecorders s).length, s.streams, s.pendingMedia))
      = some (1, [false, true], [MediaCaller.startRecording]) ∧
    (run (init blankPage 0) (doubleClickEvents ++ [Event.mediaGranted 0])).map
        (fun s => (s.isRecording, s.mediaRecorder, s.audioChunks, s.recordingStartTime))
      = some (true, some 1, [], some 500) ∧
    (run (init blankPage 0) (doubleClickEvents ++ [Event.mediaGranted 0])).map
        (fun s => ((armedRecorders s).length, s.streams, s.pendingMedia))
      = some (2, [false, true, true], []) := by
  refine ⟨by decide, by decide, by decide, by decide⟩

/-- C1 (amended): in every state reached by any sequence of tasks in which
`isRecording` holds, `mediaRecorder` is an un-stopped recorder on a live stream, and
a click on either record control does not arm: it requests no stream, keeps
`mediaRecorder`, `audioChunks` and `recordingStartTime`, and stops that recorder and
releases its stream (`isRecording` becomes false). -/
theorem C1_click_while_recording_stops (page : Dom) (now : Nat) (evs : List Event) (s : State)
    (h : run (init page now) evs = some s) (hrec : s.isRecording = true) :
    ∃ r rec, s.mediaRecorder = some r ∧ s.recorders[r]? = some rec ∧
      rec.state = RecorderState.recording ∧ s.streams[rec.stream]? = some true ∧
      ∀ e, e = Event.clickRecordBtn ∨ e = Event.clickPracticeRecordBtn →
        ∃ s1, step s e = some s1 ∧ s1.isRecording = false ∧
          s1.pendingMedia = s.pendingMedia ∧ s1.mediaRecorder = s.mediaRecorder ∧
          s1.audioChunks = s.audioChunks ∧ s1.recordingStartTime = s.recordingStartTime ∧
          s1.recorders = s.recorders.set r { rec with state := RecorderState.stopping } ∧
          s1.streams = s.streams.set rec.stream false := by
  obtain ⟨r, rec, h1, h2, h3, h4⟩ := tracked_reachable page now evs s h hrec
  have h2' : s.recorders[r]? = some rec := h2
  refine ⟨r, rec, h1, h2, h3, h4, ?_⟩
  have hsess := session_stopRecording s
  have hlt : r < s.recorders.length := by
    rcases List.getElem?_eq_some_iff.mp h2' with ⟨hi, _⟩; exact hi
  have happ : s.session.apply Effect.stop =
      { s.session with
        recorders := s.recorders.set r { rec with state := RecorderState.stopping }
        streams := s.streams.set rec.stream false
        isRecording := false } := by
    simp only [Session.apply]
    have e1 : s.session.mediaRecorder = some r := h1
    have e2 : s.session.isRecording = true := hrec
    have e3 : stopRecorder r s.session.recorders
        = s.recorders.set r { rec with state := RecorderState.stopping } := by
      unfold stopRecorder
      show (match s.recorders[r]? with
        | some rec => if rec.state = RecorderState.recording then
            s.recorders.set r { rec with state := RecorderState.stopping } else s.recorders
        | none => s.recorders) = _
      rw [h2']
      simp [h3]
    rw [e1]
    simp only [e2, if_true, e3]
    have e4 : stopTracks r (s.recorders.set r { rec with state := RecorderState.stopping })
        s.session.streams = s.streams.set rec.stream false := by
      unfold stopTracks
      rw [List.getElem?_set_self hlt]
      rfl
    rw [e4]
  rw [happ] at hsess
  obtain ⟨f1, f2, _, _, _⟩ := stopRecording_frame s
  have g1 := congrArg Session.isRecording hsess
  have g2 := congrArg Session.mediaRecorder hsess
  have g3 := congrArg Session.audioChunks hsess
  have g4 := congrArg Session.recorders hsess
  have g5 := congrArg Session.streams hsess
  intro e he
  rcases he with he | he
  · subst he
    refine ⟨stopRecording s, ?_, g1, f1, g2, g3, f2, g4, g5⟩
    simp [step, toggleRecording, hrec]
  · subst he
    obtain ⟨d, iv, rt, hpt⟩ := togglePracticeRecording_recording s hrec
    refine ⟨togglePracticeRecording s, rfl, ?_⟩
    rw [hpt]
    exact ⟨g1, f1, g2, g3, f2, g4, g5⟩

/-- C1 (witness): the amended statement at `armedExample`, reached by `armingEvents`. -/
theorem C1_click_while_recording_stops_witness :
    ∃ r rec, armedExample.mediaRecorder = some r ∧ armedExample.recorders[r]? = some rec ∧
      rec.state = RecorderState.recording ∧ armedExample.streams[rec.stream]? = some true ∧
      ∀ e, e = Event.clickRecordBtn ∨ e = Event.clickPracticeRecordBtn →
        ∃ s1, step armedExample e = some s1 ∧ s1.isRecording = false ∧
          s1.pendingMedia = armedExample.pendingMedia ∧
          s1.mediaRecorder = armedExample.mediaRecorder ∧
          s1.audioChunks = armedExample.audioChunks ∧
          s1.recordingStartTime = armedExample.recordingStartTime ∧
          s1.recorders = armedExample.recorders.set r { rec with state := RecorderState.stopping } ∧
          s1.streams = armedExample.streams.set rec.stream false :=
  C1_click_while_recording_stops blankPage 0 armingEvents armedExample (by decide) (by decide)

/-- C2 (counterexample): `armedExample`, reached by `armingEvents`, has an armed
recording and an empty `audioChunks`.  Finalizing it, by a click on the record button
(`stopRecording`) and then the final task of recorder 0, which delivers the last
chunk `[2]` before `onstop` runs `processRecording`, sends one `analyzeSpeech`
request carrying that chunk and publishes no error notification. -/
theorem C2_last_chunk_is_sent :
    run (init blankPage 0) armingEvents = some armedExample ∧
    armedExample.audioChunks = [] ∧ armedExample.isRecording = true ∧
    (run armedExample [Event.clickRecordBtn, Event.recorderStopped 0 (Blob.mk [2])]).map
        (fun s => (s.requests, s.toasts.filter (fun t => decide (t.type = ToastType.error)),
          s.isRecording))
      = some ([Request.analyzeSpeech (Blob.mk [2]) "quick"], [], false) := by
  refine ⟨by decide, by decide, by decide, by decide⟩

/-- C2 (amended): in every reachable state whose `audioChunks` is empty, finalizing the
recording with a final chunk of size 0 (so that the buffer is still empty when the
`onstop` handler runs) sends no request and leaves no call in flight, publishes the
`no audio` error notification of the handler, and ends with `isRecording = false`:
for `stopRecording`, the final `ondataavailable` and either handler run in that
order, and, when a recording is armed, for the tasks themselves, a click on either
record control followed by the final task of the armed recorder, which publish
`Recording stopped! Processing...` and then the error, and call the handler once. -/
theorem C2_empty_capture_is_not_sent (page : Dom) (now : Nat) (evs : List Event) (s : State)
    (h : run (init page now) evs = some s) (hempty : s.audioChunks = [])
    (last : Blob) (hlast : last.size = 0) :
    (∀ handler : StopHandler,
      (runStopHandler handler (ondataavailable last (stopRecording s))).requests = s.requests ∧
      (runStopHandler handler (ondataavailable last (stopRecording s))).pendingFetch
        = s.pendingFetch ∧
      (runStopHandler handler (ondataavailable last (stopRecording s))).toasts
        = (stopRecording s).toasts ++ [Toast.mk (noAudioMessage handler) ToastType.error] ∧
      (runStopHandler handler (ondataavailable last (stopRecording s))).isRecording = false) ∧
    (s.isRecording = true →
      ∃ r rec, s.mediaRecorder = some r ∧ s.recorders[r]? = some rec ∧
        ∀ e, e = Event.clickRecordBtn ∨ e = Event.clickPracticeRecordBtn →
          ∃ s1 s2, step s e = some s1 ∧ step s1 (Event.recorderStopped r last) = some s2 ∧
            s2.requests = s.requests ∧ s2.pendingFetch = s.pendingFetch ∧
            s2.isRecording = false ∧
            s2.toasts = s.toasts ++
              [Toast.mk "Recording stopped! Processing..." ToastType.info,
                Toast.mk (noAudioMessage rec.onstop) ToastType.error] ∧
            s2.calls = s.calls ++ [handlerCall rec.onstop]) := by
  have ht := tracked_reachable page now evs s h
  obtain ⟨_, _, f3, f4, f5⟩ := stopRecording_frame s
  constructor
  · intro handler
    rw [ondataavailable_empty last _ hlast,
      runStopHandler_empty handler _ ((stopRecording_audioChunks s).trans hempty)]
    exact ⟨f3, f4, rfl, stopRecording_isRecording s ht⟩
  · intro hrec
    obtain ⟨r, rec, h1, h2, h3, _⟩ := ht hrec
    have h1' : s.mediaRecorder = some r := h1
    refine ⟨r, rec, h1, h2, ?_⟩
    have hsess := stopRecording_session_armed s r rec h1 h2 h3 hrec
    have hlt : r < s.recorders.length := by
      rcases List.getElem?_eq_some_iff.mp h2 with ⟨hi, _⟩; exact hi
    have g1 : (stopRecording s).isRecording = false := congrArg Session.isRecording hsess
    have g4 : (stopRecording s).recorders
        = s.recorders.set r { rec with state := RecorderState.stopping } :=
      congrArg Session.recorders hsess
    have grec : (stopRecording s).recorders[r]?
        = some { rec with state := RecorderState.stopping } := by
      rw [g4]; exact List.getElem?_set_self hlt
    have gch : (stopRecording s).audioChunks = [] := (stopRecording_audioChunks s).trans hempty
    have gt := stopRecording_toasts_armed s r h1' hrec
    intro e he
    rcases he with he | he
    · subst he
      obtain ⟨s2, k1, k2, k3, k4, k5, k6⟩ := finalize_empty (stopRecording s) r
        { rec with state := RecorderState.stopping } last grec rfl gch hlast
      refine ⟨stopRecording s, s2, by simp [step, toggleRecording, hrec], k1, ?_, ?_, ?_, ?_, ?_⟩
      · rw [k2, f3]
      · rw [k3, f4]
      · rw [k4, g1]
      · rw [k5, gt]; simp
      · rw [k6, f5]
    · subst he
      obtain ⟨d, iv, rt, hpt⟩ := togglePracticeRecording_recording s hrec
      obtain ⟨s2, k1, k2, k3, k4, k5, k6⟩ := finalize_empty
        { stopRecording s with dom := d, intervals := iv, practiceTimer := rt } r
        { rec with state := RecorderState.stopping } last grec rfl gch hlast
      refine ⟨togglePracticeRecording s, s2, rfl, by rw [hpt]; exact k1, ?_, ?_, ?_, ?_, ?_⟩
      · rw [k2]; exact f3
      · rw [k3]; exact f4
      · rw [k4]; exact g1
      · rw [k5]
        show (stopRecording s).toasts ++ _ = _
        rw [gt]; simp
      · rw [k6]; exact congrArg (· ++ _) f5

/-- C2 (witness): the amended statement at `armedExample`, reached by `armingEvents`,
whose buffer is empty and whose recorder 0 is armed, with an empty final chunk. -/
theorem C2_empty_capture_is_not_sent_witness :
    run (init blankPage 0) armingEvents = some armedExample ∧
    armedExample.audioChunks = [] ∧ (Blob.mk []).size = 0 ∧
    armedExample.isRecording = true ∧
    (∀ handler : StopHandler,
      (runStopHandler handler
        (ondataavailable (Blob.mk []) (stopRecording armedExample))).requests
          = armedExample.requests ∧
      (runStopHandler handler
        (ondataavailable (Blob.mk []) (stopRecording armedExample))).pendingFetch
          = armedExample.pendingFetch ∧
      (runStopHandler handler
        (ondataavailable (Blob.mk []) (stopRecording armedExample))).toasts
          = (stopRecording armedExample).toasts ++
            [Toast.mk (noAudioMessage handler) ToastType.error] ∧
      (runStopHandler handler
        (ondataavailable (Blob.mk []) (stopRecording armedExample))).isRecording = false) ∧
    (armedExample.isRecording = true →
      ∃ r rec, armedExample.mediaRecorder = some r ∧ armedExample.recorders[r]? = some rec ∧
        ∀ e, e = Event.clickRecordBtn ∨ e = Event.clickPracticeRecordBtn →
          ∃ s1 s2, step armedExample e = some s1 ∧
            step s1 (Event.recorderStopped r (Blob.mk [])) = some s2 ∧
            s2.requests = armedExample.requests ∧ s2.pendingFetch = armedExample.pendingFetch ∧
            s2.isRecording = false ∧
            s2.toasts = armedExample.toasts ++
              [Toast.mk "Recording stopped! Processing..." ToastType.info,
                Toast.mk (noAudioMessage rec.onstop) ToastType.error] ∧
            s2.calls = armedExample.calls ++ [handlerCall rec.onstop]) :=
  ⟨by decide, by decide, by decide, by decide,
    C2_empty_capture_is_not_sent blankPage 0 armingEvents armedExample (by decide) (by decide)
      (Blob.mk []) (by decide)⟩

/-- C3: for every chunk sequence delivered to `ondataavailable` between an arm and
its `onstop` handler (the last one after `stopRecording`), the request sent carries
the blob built from exactly the chunks of size greater than 0, in arrival order (no
request if there is none); its bytes are the concatenation of all delivered chunks
and its size the sum of their sizes.  For sizes 10, 0, 20 the blob is built from 2
chunks and has size 30. -/
theorem C3_blob_concatenates_nonempty_chunks (s : State) (onstop : StopHandler)
    (chunks : List Blob) (last : Blob) :
    (runStopHandler onstop
        (ondataavailable last (stopRecording (deliver chunks (armWith onstop s))))).requests
      = s.requests ++ (if nonEmptyChunks (chunks ++ [last]) = [] then []
          else [dispatched onstop (Blob.ofParts (nonEmptyChunks (chunks ++ [last]))) s]) ∧
    (Blob.ofParts (nonEmptyChunks (chunks ++ [last]))).bytes
      = ((chunks ++ [last]).map Blob.bytes).flatten ∧
    (Blob.ofParts (nonEmptyChunks (chunks ++ [last]))).size
      = ((chunks ++ [last]).map Blob.size).sum ∧
    (firstChunks ++ [lastChunk]).map Blob.size = [10, 0, 20] ∧
    (nonEmptyChunks (firstChunks ++ [lastChunk])).length = 2 ∧
    (runStopHandler StopHandler.processRecording
        (ondataavailable lastChunk (stopRecording (deliver firstChunks
          (armWith StopHandler.processRecording selectedExample))))).requests
      = [Request.analyzeSpeech (Blob.mk (List.replicate 30 0)) "quick"] := by
  refine ⟨?_, ofParts_nonEmptyChunks_bytes _, ?_, by decide, by decide, by decide⟩
  · obtain ⟨a1, a2, a3⟩ := armWith_fields onstop s
    obtain ⟨_, _, f3, _, _⟩ := stopRecording_frame (deliver chunks (armWith onstop s))
    have hd : ondataavailable last (stopRecording (deliver chunks (armWith onstop s)))
        = deliver [last] (stopRecording (deliver chunks (armWith onstop s))) := rfl
    have hbuf : (ondataavailable last (stopRecording (deliver chunks (armWith onstop s)))).audioChunks
        = nonEmptyChunks (chunks ++ [last]) := by
      rw [hd, deliver_eq]
      show (stopRecording _).audioChunks ++ _ = _
      rw [stopRecording_audioChunks, deliver_eq, nonEmptyChunks_append]
      simp [a1]
    have hreq : (ondataavailable last (stopRecording (deliver chunks (armWith onstop s)))).requests
        = s.requests := by
      rw [hd, deliver_eq]
      show (stopRecording _).requests = _
      rw [f3, deliver_eq]
      exact a2
    have hkind : (ondataavailable last
        (stopRecording (deliver chunks (armWith onstop s)))).currentAssessmentType
        = s.currentAssessmentType := by
      rw [hd, deliver_eq]
      show (stopRecording _).currentAssessmentType = _
      rw [stopRecording_currentAssessmentType, deliver_eq]
      exact a3
    rw [runStopHandler_requests, hbuf, hreq]
    congr 1
    split
    · rfl
    · cases onstop
      · simp [dispatched, typeTag, hkind]
      · rfl
  · rw [← length_flatten_bytes, ← ofParts_nonEmptyChunks_bytes]
    rfl

/-- C4: in every state whose `practiceTranscriptionText` is empty, `getCoaching`
sends no request, leaves no call in flight, makes no call to `showLoading` (neither
`calls` nor the page change) and publishes exactly one notification, the error
`No transcription available`. -/
theorem C4_no_transcription_no_request (s : State) (h : s.dom.practiceTranscriptionText = "") :
    step s Event.clickGetCoachingBtn = some (getCoaching s) ∧
    (getCoaching s).requests = s.requests ∧
    (getCoaching s).pendingFetch = s.pendingFetch ∧
    (getCoaching s).calls = s.calls ∧
    (getCoaching s).dom = s.dom ∧
    (getCoaching s).toasts = s.toasts ++ [Toast.mk "No transcription available" ToastType.error] := by
  simp [step, getCoaching, h, showToast]

/-- C4 (witness): the statement in the initial state of the blank page. -/
theorem C4_no_transcription_no_request_witness :
    step (init blankPage 0) Event.clickGetCoachingBtn = some (getCoaching (init blankPage 0)) ∧
    (getCoaching (init blankPage 0)).requests = (init blankPage 0).requests ∧
    (getCoaching (init blankPage 0)).pendingFetch = (init blankPage 0).pendingFetch ∧
    (getCoaching (init blankPage 0)).calls = (init blankPage 0).calls ∧
    (getCoaching (init blankPage 0)).dom = (init blankPage 0).dom ∧
    (getCoaching (init blankPage 0)).toasts
      = (init blankPage 0).toasts ++ [Toast.mk "No transcription available" ToastType.error] :=
  C4_no_transcription_no_request (init blankPage 0) (by decide)

/-- C5: for each of the four operations and every way its remote call settles (a
rejected `fetch`, an unparseable body, any parsed body, whether rendering it
completes or throws), the loading overlay is hidden when the operation has settled. -/
theorem C5_loading_cleared (op : Operation) (resp : Response) (s : State) :
    (resumeFetch op resp s).dom.loadingOverlayHidden = true := by
  cases op
  · unfold resumeFetch transcribeAndAnalyzeResume
    apply catch_hides_loading
    intro s1 h
    unfold transcribeAndAnalyzeTry at h
    cases resp with
    | rejected => simp at h
    | unparseable => simp at h
    | json result =>
      simp only [] at h
      split at h
      · simp at h
      · split at h
        · split at h
          · have hl := displayAnalysis_loading (result.field "analysis")
              (displayTranscription (result.field "transcription") (hideLoading s))
            split at h
            · rename_i s2 heq
              rw [heq] at hl
              simp at h
              subst h
              simpa [Completion.state, showToast, displayTranscription, hideLoading] using hl
            · simp at h
          · simp at h
            subst h
            rfl
        · simp at h
          subst h
          rfl
  · unfold resumeFetch getNewPracticePromptResume
    apply catch_hides_loading
    intro s1 h
    unfold getNewPracticePromptTry at h
    cases resp with
    | rejected => simp at h
    | unparseable => simp at h
    | json result =>
      simp only [] at h
      split at h
      · simp at h
      · split at h
        · split at h
          · simp at h
          · simp at h; subst h; rfl
        · simp at h; subst h; rfl
  · unfold resumeFetch transcribePracticeAudioResume
    apply catch_hides_loading
    intro s1 h
    unfold transcribePracticeAudioTry at h
    cases resp with
    | rejected => simp at h
    | unparseable => simp at h
    | json result =>
      simp only [] at h
      split at h
      · simp at h
      · split at h
        · simp at h; subst h; rfl
        · simp at h; subst h; rfl
  · unfold resumeFetch getCoachingResume
    apply catch_hides_loading
    intro s1 h
    unfold getCoachingTry at h
    cases resp with
    | rejected => simp at h
    | unparseable => simp at h
    | json result =>
      simp only [] at h
      split at h
      · simp at h
      · split at h
        · have hl := displayCoaching_loading (result.field "coaching") (hideLoading s)
          rw [h] at hl
          simpa [Completion.state, hideLoading] using hl
        · simp at h; subst h; rfl

/-- C6 (counterexample): for the response `{success: false, error: ""}` the
notification published by `transcribeAndAnalyze` carries the fallback message
`Analysis failed. Please try again.`, not the server-supplied error string. -/
theorem C6_empty_error_shows_fallback :
    (transcribeAndAnalyzeResume (Response.json (failureBody "")) (init blankPage 0)).toasts
      = [Toast.mk "Analysis failed. Please try again." ToastType.error] ∧
    "Analysis failed. Please try again." ≠ "" := by
  refine ⟨by decide, by decide⟩

/-- C6 (amended): for every response whose `success` is `false` and whose `error`
is a non-empty string `e`, `transcribeAndAnalyze` publishes exactly one new
notification, of severity error and message `e`, and calls neither
`displayTranscription` nor `displayAnalysis` (its only call is `hideLoading`, its
only change to the page the hidden overlay); with `e = "too short"` the message is
`too short`. -/
theorem C6_server_error_is_shown (s : State) (result : JsVal) (e : String)
    (hs : result.field "success" = JsVal.bool false) (he : result.field "error" = JsVal.str e)
    (hne : e ≠ "") :
    (transcribeAndAnalyzeResume (Response.json result) s).toasts
      = s.toasts ++ [Toast.mk e ToastType.error] ∧
    (transcribeAndAnalyzeResume (Response.json result) s).calls = s.calls ++ [Call.hideLoading] ∧
    (transcribeAndAnalyzeResume (Response.json result) s).dom
      = { s.dom with loadingOverlayHidden := true } ∧
    (transcribeAndAnalyzeResume (Response.json (failureBody "too short")) s).toasts
      = s.toasts ++ [Toast.mk "too short" ToastType.error] := by
  have hnn : result.isNullish = false := by
    cases result <;> simp [JsVal.field, JsVal.isNullish] at hs ⊢
  have key : transcribeAndAnalyzeResume (Response.json result) s
      = showToast e ToastType.error (hideLoading s) := by
    simp [transcribeAndAnalyzeResume, transcribeAndAnalyzeTry, hnn, hs, he, JsVal.truthy,
      JsVal.or, hne, JsVal.toStr]
  refine ⟨by rw [key]; rfl, by rw [key]; rfl, by rw [key]; rfl, ?_⟩
  simp [transcribeAndAnalyzeResume, transcribeAndAnalyzeTry, failureBody, JsVal.isNullish,
    JsVal.field, JsVal.truthy, JsVal.or, JsVal.toStr, showToast, hideLoading, List.lookup]

/-- C6 (witness): the amended statement for `{success: false, error: "too short"}`
in the initial state of the blank page. -/
theorem C6_server_error_is_shown_witness :
    (transcribeAndAnalyzeResume (Response.json (failureBody "too short")) (init blankPage 0)).toasts
      = (init blankPage 0).toasts ++ [Toast.mk "too short" ToastType.error] ∧
    (transcribeAndAnalyzeResume (Response.json (failureBody "too short")) (init blankPage 0)).calls
      = (init blankPage 0).calls ++ [Call.hideLoading] ∧
    (transcribeAndAnalyzeResume (Response.json (failureBody "too short")) (init blankPage 0)).dom
      = { (init blankPage 0).dom with loadingOverlayHidden := true } ∧
    (transcribeAndAnalyzeResume (Response.json (failureBody "too short")) (init blankPage 0)).toasts
      = (init blankPage 0).toasts ++ [Toast.mk "too short" ToastType.error] :=
  C6_server_error_is_shown (init blankPage 0) (failureBody "too short") "too short"
    rfl rfl (by decide)

/-- What `resetRecording` does do, from every state in which recorder `r` is
recording: it leaves `isRecording = false`, `audioChunks` empty and the assessment
ticker cancelled (`recordingTimer` cleared, its interval no longer active), publishes
no notification, sends no request and calls no handler; and after any later sequence
of tasks recorder `r`, which was never stopped, has no `stop` event to fire, and a
`dataavailable` event of `r` publishes nothing, sends nothing and calls nothing. -/
theorem resetRecording_discards_silently (s : State) (r : Nat) (rec : Recorder)
    (hrec : s.recorders[r]? = some rec) (hst : rec.state = RecorderState.recording) :
    (resetRecording s).isRecording = false ∧ (resetRecording s).audioChunks = [] ∧
    (resetRecording s).recordingTimer = none ∧
    (∀ id iv, s.recordingTimer = some id → (resetRecording s).intervals[id]? = some iv →
      iv.active = false) ∧
    (resetRecording s).toasts = s.toasts ∧ (resetRecording s).requests = s.requests ∧
    (resetRecording s).pendingFetch = s.pendingFetch ∧ (resetRecording s).calls = s.calls ∧
    ∀ evs s1, run (resetRecording s) evs = some s1 →
      (∀ data, step s1 (Event.recorderStopped r data) = none) ∧
      (∀ data s2, step s1 (Event.dataAvailable r data) = some s2 →
        s2.toasts = s1.toasts ∧ s2.requests = s1.requests ∧ s2.pendingFetch = s1.pendingFetch ∧
        s2.calls = s1.calls) := by
  obtain ⟨f1, f2, f3, f4, f5, f6, f7, f8, _, f10⟩ := resetRecording_frame s
  refine ⟨f1, f2, f3, f4, f5, f6, f7, f8, ?_⟩
  intro evs s1 hrun
  have h0 : (resetRecording s).session.orphan r := by
    refine ⟨⟨rec, ?_, hst⟩, ?_⟩
    · show (resetRecording s).recorders[r]? = some rec
      rw [f10]; exact hrec
    · intro hr
      have : (resetRecording s).isRecording = true := hr
      rw [f1] at this
      exact absurd this (by decide)
  obtain ⟨⟨rec1, hrec1, hst1⟩, _⟩ :=
    session_invariant (Session.orphan r) (orphan_apply r) evs (resetRecording s) s1 h0 hrun
  have hrec1' : s1.recorders[r]? = some rec1 := hrec1
  constructor
  · intro data
    simp [step, hrec1', hst1]
  · intro data s2 hstep
    simp only [step, hrec1', hst1, if_true, Option.some.injEq] at hstep
    subst hstep
    unfold ondataavailable
    split <;> exact ⟨rfl, rfl, rfl, rfl⟩

/-- C7 (failing input): `practiceArmedExample`, reached by `practiceArmingEvents`, has
a practice recording armed with 2 buffered chunks and its ticker, interval 0 held in
`practiceTimer`, running.  `resetRecording`, here also through the navigation link to
the assessment section, leaves `isRecording = false` and `audioChunks` empty, but
the ticker is not cancelled: interval 0 stays active, `practiceTimer` stays set, the
button still shows `Stop Recording`, and two later ticks write `00:02` while idle.
The sibling exit, a click on the practice record button, cancels that ticker, and
the same reset of an assessment recording with 2 buffered chunks cancels its ticker;
`resetRecording` never touches `practiceTimer`. -/
theorem C7_practice_ticker_survives_reset :
    run (init blankPage 0) practiceArmingEvents = some practiceArmedExample ∧
    practiceArmedExample.isRecording = true ∧
    practiceArmedExample.audioChunks = [Blob.mk [1], Blob.mk [2]] ∧
    tickerRunning practiceArmedExample = true ∧
    practiceArmedExample.practiceTimer = some 0 ∧
    (resetRecording practiceArmedExample).isRecording = false ∧
    (resetRecording practiceArmedExample).audioChunks = [] ∧
    tickerRunning (resetRecording practiceArmedExample) = true ∧
    (resetRecording practiceArmedExample).practiceTimer = some 0 ∧
    (resetRecording practiceArmedExample).intervals = [Interval.mk Ticker.practice true 0] ∧
    (step practiceArmedExample (Event.clickNavLink "assessment")).map
        (fun s => (s.isRecording, s.audioChunks, tickerRunning s, s.practiceTimer,
          s.dom.practiceRecordBtnStop))
      = some (false, [], true, some 0, true) ∧
    (run practiceArmedExample
        [Event.clickNavLink "assessment", Event.intervalFired 0, Event.intervalFired 0]).map
        (fun s => (s.isRecording, s.dom.practiceTimerText))
      = some (false, "00:02") ∧
    (step practiceArmedExample Event.clickPracticeRecordBtn).map
        (fun s => (s.isRecording, tickerRunning s, s.practiceTimer, s.dom.practiceRecordBtnStop))
      = some (false, false, none, false) ∧
    (run armedExample [Event.dataAvailable 0 (Blob.mk [1]), Event.dataAvailable 0 (Blob.mk [2])]).map
        (fun s => (s.isRecording, s.audioChunks, tickerRunning s))
      = some (true, [Blob.mk [1], Blob.mk [2]], true) ∧
    (run armedExample [Event.dataAvailable 0 (Blob.mk [1]), Event.dataAvailable 0 (Blob.mk [2]),
        Event.clickNavLink "assessment"]).map
        (fun s => (s.isRecording, s.audioChunks, tickerRunning s))
      = some (false, [], false) ∧
    (∀ s : State, (resetRecording s).practiceTimer = s.practiceTimer) := by
  refine ⟨by decide, by decide, by decide, by decide, by decide, by decide, by decide, by decide,
    by decide, by decide, by decide, by decide, by decide, by decide, by decide,
    resetRecording_practiceTimer⟩

/-- C8 (failing input): after `armingEvents` one recording is armed on stream 1.  A
click on the retry button, on the navigation link to the assessment section, on the
quick assessment button or on the retake button each leaves `isRecording = false`
with stream 1 still live and recorder 0 still recording; only `stopRecording` (a
second click on the record button) releases the stream. -/
theorem C8_stream_held_after_reset :
    (run (init blankPage 0) armingEvents).map
        (fun s => (s.isRecording, s.streams, (armedRecorders s).length))
      = some (true, [false, true], 1) ∧
    (run (init blankPage 0) (armingEvents ++ [Event.clickRetryBtn])).map
        (fun s => (s.isRecording, s.streams, (armedRecorders s).length))
      = some (false, [false, true], 1) ∧
    (run (init blankPage 0) (armingEvents ++ [Event.clickNavLink "assessment"])).map
        (fun s => (s.isRecording, s.streams, (armedRecorders s).length))
      = some (false, [false, true], 1) ∧
    (run (init blankPage 0) (armingEvents ++ [Event.clickQuickAssessmentBtn])).map
        (fun s => (s.isRecording, s.streams, (armedRecorders s).length))
      = some (false, [false, true], 1) ∧
    (run (init blankPage 0) (armingEvents ++ [Event.clickRetakeAssessmentBtn])).map
        (fun s => (s.isRecording, s.streams, (armedRecorders s).length))
      = some (false, [false, true], 1) ∧
    (run (init blankPage 0) (armingEvents ++ [Event.clickRecordBtn])).map
        (fun s => (s.isRecording, s.streams, (armedRecorders s).length))
      = some (false, [false, false], 0) := by
  refine ⟨by decide, by decide, by decide, by decide, by decide, by decide⟩

/-- C9 (counterexample): a chunk that arrives while `isRecording` is false is
appended.  After `stoppingEvents` the session is idle with buffer `[[1]]`; the final
task of the recorder then delivers `[2]`, which is appended and sent.  After
`restartEvents` the buffer of the recording armed last holds the chunk `[7]` that
the earlier recorder delivered. -/
theorem C9_chunk_appended_while_idle :
    (run (init blankPage 0) stoppingEvents).map (fun s => (s.isRecording, s.audioChunks))
      = some (false, [Blob.mk [1]]) ∧
    (run (init blankPage 0) (stoppingEvents ++ [Event.recorderStopped 0 (Blob.mk [2])])).map
        (fun s => (s.isRecording, s.audioChunks, s.requests))
      = some (false, [Blob.mk [1], Blob.mk [2]],
          [Request.analyzeSpeech (Blob.mk [1, 2]) "quick"]) ∧
    (run (init blankPage 0) restartEvents).map
        (fun s => (s.isRecording, s.mediaRecorder, s.audioChunks))
      = some (true, some 1, [Blob.mk [7]]) := by
  refine ⟨by decide, by decide, by decide⟩

theorem deliveredChunks_eq_chunksFrom (r : Nat) (evs : List Event)
    (h : ∀ e ∈ evs, chunkSource e = none ∨ chunkSource e = some r) :
    deliveredChunks evs = chunksFrom r evs := by
  induction evs with
  | nil => rfl
  | cons e es ih =>
    have ih1 := ih (fun e1 he1 => h e1 (List.mem_cons_of_mem _ he1))
    have he := h e (List.mem_cons_self _ _)
    cases e <;> simp [deliveredChunks, chunksFrom, chunkSource, ih1] at he ⊢
    · rename_i r1 data
      simp [he]
    · rename_i r1 data
      simp [he]

/-- C9 (amended): `ondataavailable` appends every chunk of size greater than 0
whatever the value of `isRecording`; every arm and every `resetRecording` empties
`audioChunks`; so after an arm, over any tasks that neither arm nor reset and whose
chunks all come from the recorder just armed, `audioChunks` is exactly the chunks of
size greater than 0 delivered by that recorder, in arrival order. -/
theorem C9_buffer_since_last_arm (onstop : StopHandler) (s s1 : State) (evs : List Event)
    (h : run (armWith onstop s) evs = some s1) (hq : ∀ e ∈ evs, quietEvent e = true)
    (hsrc : ∀ e ∈ evs, chunkSource e = none ∨ chunkSource e = some s.recorders.length) :
    (armWith onstop s).audioChunks = [] ∧ (resetRecording s).audioChunks = [] ∧
    (∀ data : Blob, (ondataavailable data s).audioChunks = s.audioChunks ++ nonEmptyChunks [data]) ∧
    s1.audioChunks = nonEmptyChunks (chunksFrom s.recorders.length evs) := by
  obtain ⟨a1, _, _⟩ := armWith_fields onstop s
  refine ⟨a1, (resetRecording_frame s).2.1, ?_, ?_⟩
  · intro data
    have hd : ondataavailable data s = deliver [data] s := rfl
    rw [hd, deliver_eq]
  · rw [chunks_run evs _ s1 h hq, a1, deliveredChunks_eq_chunksFrom _ evs hsrc]
    rfl

/-- C9 (witness): the amended statement for the arm of `armedExample` followed by
`recordingEvents` and the final task of recorder 0. -/
theorem C9_buffer_since_last_arm_witness :
    (armWith StopHandler.processRecording selectedExample).audioChunks = [] ∧
    (resetRecording selectedExample).audioChunks = [] ∧
    (∀ data : Blob, (ondataavailable data selectedExample).audioChunks
      = selectedExample.audioChunks ++ nonEmptyChunks [data]) ∧
    sentExample.audioChunks
      = nonEmptyChunks (chunksFrom selectedExample.recorders.length
          (recordingEvents ++ [Event.recorderStopped 0 (Blob.mk [2])])) :=
  C9_buffer_since_last_arm StopHandler.processRecording selectedExample sentExample
    (recordingEvents ++ [Event.recorderStopped 0 (Blob.mk [2])])
    (by decide) (by decide) (by decide)

/-- C10 (counterexample): a recording armed while `quick` is selected is dispatched
with the type tag `comprehensive` when that kind is selected between the stop click
and the final task of the recorder. -/
theorem C10_tag_is_read_at_dispatch :
    armedExample.isRecording = true ∧ armedExample.currentAssessmentType = some "quick" ∧
    run (init blankPage 0) armingEvents = some armedExample ∧
    (run (init blankPage 0) reselectEvents).map (fun s => s.requests)
      = some [Request.analyzeSpeech (Blob.mk [2]) "comprehensive"] := by
  refine ⟨by decide, by decide, by decide, by decide⟩

/-- C10 (amended): the endpoint of a capture is fixed at arm time and the type tag
is read at dispatch time.  After an arm by `startRecording` (resp.
`startPracticeRecording`) and any sequence of tasks, the final task of that recorder
sends at most one request, to `/analyze_speech` with the type tag
`currentAssessmentType || 'general'` of the state in which the task runs (resp. to
`/transcribe_audio`), whichever control stopped the recording; when no assessment
kind was selected in between, that tag is the one of arm time. -/
theorem C10_endpoint_bound_at_arm (onstop : StopHandler) (s s1 s2 : State) (evs : List Event)
    (data : Blob) (h1 : run (armWith onstop s) evs = some s1)
    (h2 : step s1 (Event.recorderStopped s.recorders.length data) = some s2) :
    s2.requests = s1.requests ++
      (if (ondataavailable data s1).audioChunks = [] then []
        else [dispatched onstop (Blob.ofParts (ondataavailable data s1).audioChunks) s1]) ∧
    ((∀ e ∈ evs, selectsAssessment e = false) → typeTag s1 = typeTag s) := by
  constructor
  · obtain ⟨rec, hrec, ho⟩ := session_invariant (Session.handlerIs s.recorders.length onstop)
      (fun σ eff hσ _ => handlerIs_apply _ _ σ eff hσ) evs _ s1 (armWith_handlerIs onstop s) h1
    have hrec' : s1.recorders[s.recorders.length]? = some rec := hrec
    simp only [step, hrec'] at h2
    split at h2
    · simp only [Option.some.injEq] at h2
      subst h2
      rw [ho, runStopHandler_requests]
      have e1 : (ondataavailable data s1).requests = s1.requests := by
        unfold ondataavailable; split <;> rfl
      have e2 : (ondataavailable data s1).currentAssessmentType = s1.currentAssessmentType := by
        unfold ondataavailable; split <;> rfl
      show (ondataavailable data s1).requests ++ _ = _
      rw [e1]
      congr 1
      show (if (ondataavailable data s1).audioChunks = [] then [] else _) = _
      split
      · rfl
      · cases onstop
        · simp [dispatched, typeTag, e2]
        · rfl
    · simp at h2
  · intro hq
    have hk := kind_run evs _ s1 h1 hq
    rw [(armWith_fields onstop s).2.2] at hk
    simp [typeTag, hk]

/-- C10 (witness): the amended statement for the arm of `armedExample`, stopped by
`recordingEvents`: the final task of recorder 0 sends one request to
`/analyze_speech`, tagged `quick`. -/
theorem C10_endpoint_bound_at_arm_witness :
    sentExample.requests = stoppedExample.requests ++
      (if (ondataavailable (Blob.mk [2]) stoppedExample).audioChunks = [] then []
        else [dispatched StopHandler.processRecording
          (Blob.ofParts (ondataavailable (Blob.mk [2]) stoppedExample).audioChunks)
          stoppedExample]) ∧
    ((∀ e ∈ recordingEvents, selectsAssessment e = false) →
      typeTag stoppedExample = typeTag selectedExample) :=
  C10_endpoint_bound_at_arm StopHandler.processRecording selectedExample stoppedExample
    sentExample recordingEvents (Blob.mk [2]) (by decide) (by decide)

/-! ## Prompt, analysis display, repeated stop, coaching, tickers -/

/-- C11: for every response whose `success` is `true` and whose `prompt` carries the
strings `p` and `i`, `getNewPracticePrompt` shows `p` as the prompt text and `i` as
the instructions, hides the practice transcription and the coaching feedback (and
the loading overlay) and publishes no notification; for `Describe your morning` the
prompt shown is `Describe your morning`. -/
theorem C11_prompt_is_displayed (s : State) (result prm : JsVal) (p i : String)
    (hs : result.field "success" = JsVal.bool true) (hp : result.field "prompt" = prm)
    (hpp : prm.field "prompt" = JsVal.str p) (hpi : prm.field "instructions" = JsVal.str i) :
    (getNewPracticePromptResume (Response.json result) s).dom.promptText = p ∧
    (getNewPracticePromptResume (Response.json result) s).dom.promptInstructions = i ∧
    (getNewPracticePromptResume (Response.json result) s).dom.practiceTranscriptionHidden = true ∧
    (getNewPracticePromptResume (Response.json result) s).dom.coachingFeedbackHidden = true ∧
    (getNewPracticePromptResume (Response.json result) s).dom.loadingOverlayHidden = true ∧
    (getNewPracticePromptResume (Response.json result) s).toasts = s.toasts ∧
    (getNewPracticePromptResume
      (Response.json (promptBody "Describe your morning" "Speak for 2 minutes")) s).dom.promptText
      = "Describe your morning" := by
  have hnn : result.isNullish = false := by
    cases result <;> simp [JsVal.field, JsVal.isNullish] at hs ⊢
  have hpn : prm.isNullish = false := by
    cases prm <;> simp [JsVal.field, JsVal.isNullish] at hpp ⊢
  have key : getNewPracticePromptResume (Response.json result) s
      = { hideLoading s with dom := { (hideLoading s).dom with
            promptText := p
            promptInstructions := i
            practiceTranscriptionHidden := true
            coachingFeedbackHidden := true } } := by
    simp [getNewPracticePromptResume, getNewPracticePromptTry, hnn, hs, hp, hpn, hpp, hpi,
      JsVal.truthy, textContentOf, JsVal.toStr,
      show (JsVal.str p).isNullish = false from rfl,
      show (JsVal.str i).isNullish = false from rfl]
  rw [key]
  refine ⟨rfl, rfl, rfl, rfl, rfl, rfl, ?_⟩
  simp [getNewPracticePromptResume, getNewPracticePromptTry, promptBody, JsVal.isNullish,
    JsVal.field, JsVal.truthy, textContentOf, JsVal.toStr, List.lookup]

/-- C11 (witness): the statement for the body
`{success: true, prompt: {prompt: "Describe your morning", instructions: "Speak for 2 minutes"}}`
in the initial state of the blank page. -/
theorem C11_prompt_is_displayed_witness :
    (getNewPracticePromptResume (Response.json
      (promptBody "Describe your morning" "Speak for 2 minutes")) (init blankPage 0)).dom.promptText
        = "Describe your morning" ∧
    (getNewPracticePromptResume (Response.json
      (promptBody "Describe your morning" "Speak for 2 minutes"))
        (init blankPage 0)).dom.promptInstructions = "Speak for 2 minutes" ∧
    (getNewPracticePromptResume (Response.json
      (promptBody "Describe your morning" "Speak for 2 minutes"))
        (init blankPage 0)).dom.practiceTranscriptionHidden = true ∧
    (getNewPracticePromptResume (Response.json
      (promptBody "Describe your morning" "Speak for 2 minutes"))
        (init blankPage 0)).dom.coachingFeedbackHidden = true ∧
    (getNewPracticePromptResume (Response.json
      (promptBody "Describe your morning" "Speak for 2 minutes"))
        (init blankPage 0)).dom.loadingOverlayHidden = true ∧
    (getNewPracticePromptResume (Response.json
      (promptBody "Describe your morning" "Speak for 2 minutes")) (init blankPage 0)).toasts
        = (init blankPage 0).toasts ∧
    (getNewPracticePromptResume (Response.json
      (promptBody "Describe your morning" "Speak for 2 minutes")) (init blankPage 0)).dom.promptText
        = "Describe your morning" :=
  C11_prompt_is_displayed (init blankPage 0)
    (promptBody "Describe your morning" "Speak for 2 minutes")
    (JsVal.obj [("prompt", JsVal.str "Describe your morning"),
      ("instructions", JsVal.str "Speak for 2 minutes")])
    "Describe your morning" "Speak for 2 minutes" rfl rfl rfl rfl

theorem textContentOf_or (v : JsVal) (fb : String) (h : textFieldOk v = true) :
    textContentOf (v.or (JsVal.str fb)) = slotText v fb := by
  cases v <;>
    simp_all [textFieldOk, JsVal.isUndefined, JsVal.truthy, JsVal.or, textContentOf,
      JsVal.isNullish, slotText, JsVal.toStr]

theorem toStr_or (v fb : JsVal) (h : textFieldOk v = true) :
    (v.or fb).toStr = if v.isUndefined then fb.toStr else v.toStr := by
  cases v <;>
    simp_all [textFieldOk, JsVal.isUndefined, JsVal.truthy, JsVal.or]

theorem updateList_or (v : JsVal) (a : String) (fb : List String) (cur : String)
    (h : listFieldOk v = true) :
    updateList (v.or (JsVal.arr ((a :: fb).map JsVal.str))) cur = slotList v (a :: fb) := by
  cases v with
  | arr items =>
    cases items with
    | nil => simp [listFieldOk] at h
    | cons x xs => simp [JsVal.or, JsVal.truthy, updateList, slotList]
  | undefined => simp [JsVal.or, JsVal.truthy, updateList, slotList]
  | _ => simp [listFieldOk] at h

/-- C12 (counterexample): for the empty analysis object the slot `advancedWords` gets
no fallback: it keeps the text it had, `eloquent, meticulous` in one state and the
empty text in another.  An analysis whose `advanced_words` is a string makes
`displayAnalysis` throw.  A supplied `filler_count` of 0 is shown as `5 instances`,
and a supplied empty list of strengths leaves the list as it was (empty here),
neither the supplied value nor the fallback. -/
theorem C12_slots_without_fallback :
    (displayAnalysis (JsVal.obj []) shownWordsExample).threw = false ∧
    (displayAnalysis (JsVal.obj []) shownWordsExample).state.dom.advancedWords
      = "eloquent, meticulous" ∧
    (displayAnalysis (JsVal.obj []) (init blankPage 0)).state.dom.advancedWords = "" ∧
    (displayAnalysis wordsAsTextAnalysis (init blankPage 0)).threw = true ∧
    (displayAnalysis zeroFillerAnalysis (init blankPage 0)).state.dom.fillerCount
      = "5 instances" ∧
    (displayAnalysis zeroFillerAnalysis (init blankPage 0)).state.dom.grammarStrengths = "" ∧
    (displayAnalysis (JsVal.obj []) (init blankPage 0)).state.dom.grammarStrengths
      = "<li>Accurate basic tense usage</li><li>Good sentence structure</li>" := by
  refine ⟨by decide, by decide, by decide, by decide, by decide, by decide, by decide⟩

/-- C12 (amended): for every analysis object each of whose recognized fields is
absent or usable (a text or number field truthy, a list field a non-empty array,
`advanced_words` an array), the empty object and objects lacking any subset of the
fields included, `displayAnalysis` completes without throwing and sets every slot to
the supplied value when the field is present and to its fixed fallback when absent;
the slot `advancedWords` has no fallback and keeps its text when the field is
absent. -/
theorem C12_display_follows_specification (fields : List (String × JsVal)) (s : State)
    (h : analysisOk (JsVal.obj fields) = true) :
    displayAnalysis (JsVal.obj fields) s
      = Completion.normal { s with
          calls := s.calls ++ [Call.displayAnalysis]
          dom := specifiedAnalysis (JsVal.obj fields) s.dom } := by
  simp only [analysisOk, Bool.and_eq_true] at h
  obtain ⟨⟨⟨⟨⟨⟨⟨⟨⟨⟨⟨⟨⟨⟨⟨⟨h1, h2⟩, h3⟩, h4⟩, h5⟩, h6⟩, h7⟩, h8⟩, h9⟩, h10⟩, h11⟩, h12⟩, h13⟩,
    h14⟩, h15⟩, h16⟩, h17⟩ := h
  unfold displayAnalysis specifiedAnalysis
  simp only [show (JsVal.obj fields).isNullish = false from rfl, Bool.false_eq_true, if_false,
    textContentOf_or _ _ h1, textContentOf_or _ _ h2, textContentOf_or _ _ h3,
    textContentOf_or _ _ h4, textContentOf_or _ _ h5, textContentOf_or _ _ h6,
    textContentOf_or _ _ h7, toStr_or _ _ h11, toStr_or _ _ h12, toStr_or _ _ h17,
    updateList_or _ _ _ _ h9, updateList_or _ _ _ _ h10, updateList_or _ _ _ _ h13,
    updateList_or _ _ _ _ h14, updateList_or _ _ _ _ h15, updateList_or _ _ _ _ h16]
  generalize (JsVal.field (JsVal.field (JsVal.obj fields) "vocabulary") "advanced_words") = aw
    at h8 ⊢
  cases aw with
  | undefined => simp [JsVal.truthy, slotText, JsVal.toStr]
  | arr items => simp [JsVal.truthy, slotText, JsVal.toStr]
  | _ => simp [wordsFieldOk] at h8

/-- C12 (witness): the amended statement for an analysis that supplies five of the
recognized fields, displayed in the initial state of the blank page. -/
theorem C12_display_follows_specification_witness :
    displayAnalysis (JsVal.obj partialFields) (init blankPage 0)
      = Completion.normal { init blankPage 0 with
          calls := (init blankPage 0).calls ++ [Call.displayAnalysis]
          dom := specifiedAnalysis (JsVal.obj partialFields) (init blankPage 0).dom } :=
  C12_display_follows_specification partialFields (init blankPage 0) (by decide)

/-! ### Stopping twice -/

theorem inactive_apply (r : Nat) (σ : Session) (eff : Effect) (h : σ.inactive r) :
    (σ.apply eff).inactive r := by
  obtain ⟨rec, hrec, hst⟩ := h
  have hlt : r < σ.recorders.length := by
    rcases List.getElem?_eq_some_iff.mp hrec with ⟨hi, _⟩; exact hi
  cases eff with
  | none => exact ⟨rec, hrec, hst⟩
  | reset => exact ⟨rec, hrec, hst⟩
  | select type => exact ⟨rec, hrec, hst⟩
  | stop =>
    simp only [Session.apply]
    cases hm : σ.mediaRecorder with
    | none => exact ⟨rec, hrec, hst⟩
    | some r0 =>
      by_cases hr : σ.isRecording = true
      · simp only [hr, if_true]
        refine ⟨rec, ?_, hst⟩
        show (stopRecorder r0 σ.recorders)[r]? = some rec
        by_cases hne : r0 = r
        · subst hne
          unfold stopRecorder
          rw [hrec]
          simp [hst, hrec]
        · rw [getElem?_stopRecorder_ne r r0 _ hne]; exact hrec
      · simp only [hr, if_false]
        exact ⟨rec, hrec, hst⟩
  | arm onstop => exact ⟨rec, getElem?_append_of_some _ _ _ _ hrec, hst⟩
  | probe => exact ⟨rec, hrec, hst⟩
  | chunk data =>
    simp only [Session.apply]
    split
    · exact ⟨rec, hrec, hst⟩
    · exact ⟨rec, hrec, hst⟩
  | stopped r1 data =>
    simp only [Session.apply]
    cases hr1 : σ.recorders[r1]? with
    | none => exact ⟨rec, hrec, hst⟩
    | some rec1 =>
      simp only []
      by_cases hne : r1 = r
      · subst hne
        exact ⟨_, List.getElem?_set_self hlt, rfl⟩
      · refine ⟨rec, ?_, hst⟩
        show (σ.recorders.set r1 _)[r]? = some rec
        rw [List.getElem?_set_ne hne]; exact hrec

theorem stopRecording_idle (s : State) (h : s.isRecording = false) : stopRecording s = s := by
  unfold stopRecording
  split
  · simp [h]
  · rfl

theorem stopRecording_idempotent (s : State) : stopRecording (stopRecording s) = stopRecording s := by
  by_cases hr : s.isRecording = true
  · cases hm : s.mediaRecorder with
    | none =>
      have : stopRecording s = s := by unfold stopRecording; simp [hm]
      rw [this, this]
    | some r =>
      apply stopRecording_idle
      have hs : (stopRecording s).isRecording = (s.session.apply Effect.stop).isRecording :=
        congrArg Session.isRecording (session_stopRecording s)
      rw [hs]
      have e1 : s.session.mediaRecorder = some r := hm
      have e2 : s.session.isRecording = true := hr
      simp only [Session.apply, e1, e2, if_true]
  · have hf : s.isRecording = false := by simpa using hr
    rw [stopRecording_idle s hf, stopRecording_idle s hf]

theorem runStopHandler_calls (h : StopHandler) (s : State) :
    (runStopHandler h s).calls.count (handlerCall h) = s.calls.count (handlerCall h) + 1 := by
  cases h
  · by_cases he : s.audioChunks = []
    · simp [runStopHandler, processRecording, he, showToast, handlerCall]
    · simp [runStopHandler, processRecording, he, transcribeAndAnalyze, showLoading, handlerCall]
  · by_cases he : s.audioChunks = []
    · simp [runStopHandler, processPracticeRecording, he, showToast, handlerCall]
    · simp [runStopHandler, processPracticeRecording, he, transcribePracticeAudio, showLoading,
        handlerCall]

/-- C13 (counterexample): in `resetExample`, where the recording was reset with the
retry button, `isRecording` is false and `stopRecording` does nothing: after one
call and after two calls stream 1, acquired by `startRecording`, is still live. -/
theorem C13_stream_held_after_idle_stop :
    run (init blankPage 0) (armingEvents ++ [Event.clickRetryBtn]) = some resetExample ∧
    resetExample.isRecording = false ∧ resetExample.mediaRecorder = some 0 ∧
    resetExample.recorders
      = [Recorder.mk 1 RecorderState.recording StopHandler.processRecording] ∧
    stopRecording resetExample = resetExample ∧
    (stopRecording resetExample).streams = [false, true] ∧
    (stopRecording (stopRecording resetExample)).streams = [false, true] := by
  refine ⟨by decide, by decide, by decide, by decide, by decide, by decide, by decide⟩

/-- C13 (amended): `stopRecording` is idempotent in every state.  In every reachable
state in which `isRecording` holds, the first call sets `isRecording` to false,
releases the stream of `mediaRecorder` and stops that recorder, the second call
changes nothing; the final task of the recorder then runs its `onstop` handler once,
and after it no further final task of that recorder can run. -/
theorem C13_stop_twice_is_stop_once (page : Dom) (now : Nat) (evs : List Event) (s : State)
    (h : run (init page now) evs = some s) (hrec : s.isRecording = true) :
    (∀ s0 : State, stopRecording (stopRecording s0) = stopRecording s0) ∧
    ∃ r rec, s.mediaRecorder = some r ∧ s.recorders[r]? = some rec ∧
      (stopRecording s).isRecording = false ∧
      (stopRecording s).streams[rec.stream]? = some false ∧
      (stopRecording s).recorders[r]? = some { rec with state := RecorderState.stopping } ∧
      ∀ data, ∃ s2,
        step (stopRecording (stopRecording s)) (Event.recorderStopped r data) = some s2 ∧
        s2.calls.count (handlerCall rec.onstop) = s.calls.count (handlerCall rec.onstop) + 1 ∧
        ∀ evs2 s3 data2, run s2 evs2 = some s3 →
          step s3 (Event.recorderStopped r data2) = none := by
  refine ⟨stopRecording_idempotent, ?_⟩
  obtain ⟨r, rec, h1, h2, h3, h4⟩ := tracked_reachable page now evs s h hrec
  have h2' : s.recorders[r]? = some rec := h2
  have hsess := stopRecording_session_armed s r rec h1 h2 h3 hrec
  have hlt : r < s.recorders.length := by
    rcases List.getElem?_eq_some_iff.mp h2' with ⟨hi, _⟩; exact hi
  have hslt : rec.stream < s.streams.length := by
    rcases List.getElem?_eq_some_iff.mp h4 with ⟨hi, _⟩; exact hi
  have g1 : (stopRecording s).isRecording = false := congrArg Session.isRecording hsess
  have g4 : (stopRecording s).recorders
      = s.recorders.set r { rec with state := RecorderState.stopping } :=
    congrArg Session.recorders hsess
  have g5 : (stopRecording s).streams = s.streams.set rec.stream false :=
    congrArg Session.streams hsess
  have grec : (stopRecording s).recorders[r]?
      = some { rec with state := RecorderState.stopping } := by
    rw [g4]; exact List.getElem?_set_self hlt
  refine ⟨r, rec, h1, h2, g1, ?_, grec, ?_⟩
  · rw [g5]; exact List.getElem?_set_self hslt
  · intro data
    rw [stopRecording_idempotent]
    obtain ⟨_, _, _, _, fc⟩ := stopRecording_frame s
    refine ⟨_, by simp only [step, grec, if_true]; rfl, ?_, ?_⟩
    · rw [runStopHandler_calls]
      have : (ondataavailable data (stopRecording s)).calls = s.calls := by
        unfold ondataavailable; split <;> exact fc
      show List.count _ (ondataavailable data (stopRecording s)).calls + 1 = _
      rw [this]
    · intro evs2 s3 data2 hrun
      have h0 : Session.inactive r (State.session (runStopHandler rec.onstop
          { ondataavailable data (stopRecording s) with
            recorders := (ondataavailable data (stopRecording s)).recorders.set r
              { rec with state := RecorderState.inactive } })) := by
        rw [session_runStopHandler]
        refine ⟨{ rec with state := RecorderState.inactive }, ?_, rfl⟩
        show ((ondataavailable data (stopRecording s)).recorders.set r _)[r]? = _
        have hl : r < (ondataavailable data (stopRecording s)).recorders.length := by
          have : (ondataavailable data (stopRecording s)).recorders = (stopRecording s).recorders := by
            unfold ondataavailable; split <;> rfl
          rw [this, g4, List.length_set]; exact hlt
        exact List.getElem?_set_self hl
      obtain ⟨rec3, hrec3, hst3⟩ := session_invariant (Session.inactive r)
        (fun σ eff hσ _ => inactive_apply r σ eff hσ) evs2 _ s3 h0 hrun
      have hrec3' : s3.recorders[r]? = some rec3 := hrec3
      simp [step, hrec3', hst3]

/-- C13 (witness): the amended statement at `armedExample`. -/
theorem C13_stop_twice_is_stop_once_witness :
    (∀ s0 : State, stopRecording (stopRecording s0) = stopRecording s0) ∧
    ∃ r rec, armedExample.mediaRecorder = some r ∧ armedExample.recorders[r]? = some rec ∧
      (stopRecording armedExample).isRecording = false ∧
      (stopRecording armedExample).streams[rec.stream]? = some false ∧
      (stopRecording armedExample).recorders[r]?
        = some { rec with state := RecorderState.stopping } ∧
      ∀ data, ∃ s2,
        step (stopRecording (stopRecording armedExample)) (Event.recorderStopped r data)
          = some s2 ∧
        s2.calls.count (handlerCall rec.onstop)
          = armedExample.calls.count (handlerCall rec.onstop) + 1 ∧
        ∀ evs2 s3 data2, run s2 evs2 = some s3 →
          step s3 (Event.recorderStopped r data2) = none :=
  C13_stop_twice_is_stop_once blankPage 0 armingEvents armedExample (by decide) (by decide)

/-! ### The stored transcription -/

@[simp] theorem text_showToast (m : String) (t : ToastType) (s : State) :
    (showToast m t s).lastTranscription = s.lastTranscription := rfl

@[simp] theorem text_showLoading (m : String) (s : State) :
    (showLoading m s).lastTranscription = s.lastTranscription := rfl

@[simp] theorem text_hideLoading (s : State) :
    (hideLoading s).lastTranscription = s.lastTranscription := rfl

@[simp] theorem text_stopRecordingTimer (s : State) :
    (stopRecordingTimer s).lastTranscription = s.lastTranscription := by
  unfold stopRecordingTimer; split <;> rfl

@[simp] theorem text_stopPracticeTimer (s : State) :
    (stopPracticeTimer s).lastTranscription = s.lastTranscription := by
  unfold stopPracticeTimer; split <;> rfl

@[simp] theorem text_resetRecording (s : State) :
    (resetRecording s).lastTranscription = s.lastTranscription := by
  unfold resetRecording
  show (stopRecordingTimer _).lastTranscription = _
  rw [text_stopRecordingTimer]
  rfl

@[simp] theorem text_stopRecording (s : State) :
    (stopRecording s).lastTranscription = s.lastTranscription := by
  unfold stopRecording
  split
  · split
    · show (stopRecordingTimer _).lastTranscription = _
      rw [text_stopRecordingTimer]
      rfl
    · rfl
  · rfl

@[simp] theorem text_showSection (t : String) (s : State) :
    (showSection t s).lastTranscription = s.lastTranscription := by
  unfold showSection
  simp only []
  split
  · show (resetRecording _).lastTranscription = _
    rw [text_resetRecording]; rfl
  · split <;> rfl

@[simp] theorem text_startAssessment (t : String) (s : State) :
    (startAssessment t s).lastTranscription = s.lastTranscription := by
  show (resetRecording _).lastTranscription = _
  rw [text_resetRecording]; rfl

@[simp] theorem text_startTopicAssessment (s : State) :
    (startTopicAssessment s).lastTranscription = s.lastTranscription := by
  show (resetRecording _).lastTranscription = _
  rw [text_resetRecording]; rfl

@[simp] theorem text_resetAssessment (s : State) :
    (resetAssessment s).lastTranscription = s.lastTranscription := by
  show (resetRecording s).lastTranscription = _
  exact text_resetRecording s

@[simp] theorem text_getNewPracticePrompt (s : State) :
    (getNewPracticePrompt s).lastTranscription = s.lastTranscription := by
  unfold getNewPracticePrompt; split <;> rfl

@[simp] theorem text_selectPracticeType (t : String) (s : State) :
    (selectPracticeType t s).lastTranscription = s.lastTranscription := by
  unfold selectPracticeType
  simp only [text_showToast, text_getNewPracticePrompt]
  rfl

@[simp] theorem text_getCoaching (s : State) :
    (getCoaching s).lastTranscription = s.lastTranscription := by
  unfold getCoaching; simp only []; split <;> rfl

@[simp] theorem text_togglePracticeRecording (s : State) :
    (togglePracticeRecording s).lastTranscription = s.lastTranscription := by
  unfold togglePracticeRecording
  split
  · simp only [text_stopPracticeTimer]
    exact text_stopRecording s
  · rfl

@[simp] theorem text_resumeMedia (c : MediaCaller) (g : Bool) (s : State) :
    (resumeMedia c g s).lastTranscription = s.lastTranscription := by
  cases c <;> cases g <;> rfl

@[simp] theorem text_ondataavailable (d : Blob) (s : State) :
    (ondataavailable d s).lastTranscription = s.lastTranscription := by
  unfold ondataavailable; split <;> rfl

@[simp] theorem text_runStopHandler (h : StopHandler) (s : State) :
    (runStopHandler h s).lastTranscription = s.lastTranscription := by
  cases h
  · unfold runStopHandler processRecording; simp only []; split <;> rfl
  · unfold runStopHandler processPracticeRecording; simp only []; split <;> rfl

theorem text_displayAnalysis (a : JsVal) (s : State) :
    (displayAnalysis a s).state.lastTranscription = s.lastTranscription := by
  unfold displayAnalysis
  simp only []
  split
  · rfl
  · split <;> rfl

theorem text_displayCoaching (a : JsVal) (s : State) :
    (displayCoaching a s).state.lastTranscription = s.lastTranscription := by
  unfold displayCoaching
  simp only []
  split
  · rfl
  · split
    · rfl
    · split <;> rfl

theorem text_catch (c : Completion) (msg : String) :
    (match c with
      | Completion.normal s => s
      | Completion.thrown s => showToast msg ToastType.error (hideLoading s)).lastTranscription
      = c.state.lastTranscription := by
  cases c <;> rfl

theorem text_transcribeAndAnalyzeTry (resp : Response) (s : State) :
    (transcribeAndAnalyzeTry resp s).state.lastTranscription = s.lastTranscription := by
  unfold transcribeAndAnalyzeTry
  cases resp with
  | rejected => rfl
  | unparseable => rfl
  | json result =>
    simp only []
    split
    · rfl
    · split
      · split
        · have h := text_displayAnalysis (result.field "analysis")
            (displayTranscription (result.field "transcription") (hideLoading s))
          split
          · rename_i heq; rw [heq] at h; simpa [Completion.state] using h
          · rename_i heq; rw [heq] at h; simpa [Completion.state] using h
        · rfl
      · rfl

theorem text_getNewPracticePromptTry (resp : Response) (s : State) :
    (getNewPracticePromptTry resp s).state.lastTranscription = s.lastTranscription := by
  unfold getNewPracticePromptTry
  cases resp with
  | rejected => rfl
  | unparseable => rfl
  | json result =>
    simp only []
    split
    · rfl
    · split
      · split <;> rfl
      · rfl

theorem text_getCoachingTry (resp : Response) (s : State) :
    (getCoachingTry resp s).state.lastTranscription = s.lastTranscription := by
  unfold getCoachingTry
  cases resp with
  | rejected => rfl
  | unparseable => rfl
  | json result =>
    simp only []
    split
    · rfl
    · split
      · exact (text_displayCoaching _ _).trans rfl
      · rfl

theorem text_resumeFetch (op : Operation) (resp : Response) (s : State)
    (h : op ≠ Operation.transcribePracticeAudio) :
    (resumeFetch op resp s).lastTranscription = s.lastTranscription := by
  cases op
  · exact (text_catch _ _).trans (text_transcribeAndAnalyzeTry resp s)
  · exact (text_catch _ _).trans (text_getNewPracticePromptTry resp s)
  · exact absurd rfl h
  · exact (text_catch _ _).trans (text_getCoachingTry resp s)

theorem text_step (s s1 : State) (e : Event) (h : step s e = some s1)
    (hq : settlesTranscription s e = false) :
    s1.lastTranscription = s.lastTranscription := by
  cases e with
  | mediaGranted i =>
    simp only [step] at h
    cases hp : s.pendingMedia[i]? with
    | none => simp [hp] at h
    | some c =>
      simp only [hp, Option.some.injEq] at h
      subst h
      rw [text_resumeMedia]; rfl
  | mediaDenied i =>
    simp only [step] at h
    cases hp : s.pendingMedia[i]? with
    | none => simp [hp] at h
    | some c =>
      simp only [hp, Option.some.injEq] at h
      subst h
      rw [text_resumeMedia]; rfl
  | dataAvailable r data =>
    simp only [step] at h
    cases hp : s.recorders[r]? with
    | none => simp [hp] at h
    | some rec =>
      simp only [hp] at h
      split at h
      · simp only [Option.some.injEq] at h
        subst h
        exact text_ondataavailable data s
      · simp at h
  | recorderStopped r data =>
    simp only [step] at h
    cases hp : s.recorders[r]? with
    | none => simp [hp] at h
    | some rec =>
      simp only [hp] at h
      split at h
      · simp only [Option.some.injEq] at h
        subst h
        rw [text_runStopHandler]
        exact text_ondataavailable data s
      · simp at h
  | fetchSettled i resp =>
    simp only [step] at h
    cases hp : s.pendingFetch[i]? with
    | none => simp [hp] at h
    | some op =>
      simp only [hp, Option.some.injEq] at h
      subst h
      have hop : op ≠ Operation.transcribePracticeAudio := by
        intro heq
        simp [settlesTranscription, hp, heq] at hq
      rw [text_resumeFetch _ _ _ hop]; rfl
  | intervalFired id =>
    simp only [step] at h
    cases hp : s.intervals[id]? with
    | none => simp [hp] at h
    | some iv =>
      simp only [hp] at h
      split at h
      · split at h
        · simp only [Option.some.injEq] at h
          subst h; rfl
        · simp only [Option.some.injEq] at h
          subst h; rfl
      · simp at h
  | clickPracticeCard practiceType =>
    simp only [step, Option.some.injEq] at h
    subst h
    split
    · exact text_selectPracticeType _ _
    · rfl
  | clickRecordBtn =>
    simp only [step, Option.some.injEq] at h
    subst h
    unfold toggleRecording
    split
    · exact text_stopRecording s
    · rfl
  | clickNavLink target =>
    simp only [step, Option.some.injEq] at h
    subst h
    exact text_showSection _ _
  | clickStartAssessmentBtn =>
    simp only [step, Option.some.injEq] at h
    subst h
    exact text_showSection _ _
  | clickStartPracticeBtn =>
    simp only [step, Option.some.injEq] at h
    subst h
    exact text_showSection _ _
  | clickQuickAssessmentBtn =>
    simp only [step, Option.some.injEq] at h
    subst h
    exact text_startAssessment _ _
  | clickComprehensiveAssessmentBtn =>
    simp only [step, Option.some.injEq] at h
    subst h
    exact text_startAssessment _ _
  | clickTopicAssessmentBtn =>
    simp only [step, Option.some.injEq] at h
    subst h
    exact text_startTopicAssessment _
  | clickRetryBtn =>
    simp only [step, Option.some.injEq] at h
    subst h
    exact text_resetRecording _
  | clickGoToPracticeBtn =>
    simp only [step, Option.some.injEq] at h
    subst h
    exact text_showSection _ _
  | clickRetakeAssessmentBtn =>
    simp only [step, Option.some.injEq] at h
    subst h
    exact text_resetAssessment _
  | clickPracticeRecordBtn =>
    simp only [step, Option.some.injEq] at h
    subst h
    exact text_togglePracticeRecording _
  | clickGetNewPromptBtn =>
    simp only [step, Option.some.injEq] at h
    subst h
    exact text_getNewPracticePrompt _
  | clickGetCoachingBtn =>
    simp only [step, Option.some.injEq] at h
    subst h
    exact text_getCoaching _
  | clickContinuePracticeBtn =>
    simp only [step, Option.some.injEq] at h
    subst h
    exact text_getNewPracticePrompt _
  | clickChangePracticeTypeBtn =>
    simp only [step, Option.some.injEq] at h
    subst h
    rfl
  | inputAssessmentTopic value =>
    simp only [step, Option.some.injEq] at h
    subst h
    rfl
  | inputPracticeLevel value =>
    simp only [step, Option.some.injEq] at h
    subst h
    rfl
  | inputPracticeTopic value =>
    simp only [step, Option.some.injEq] at h
    subst h
    rfl
  | clockAdvanced ms =>
    simp only [step, Option.some.injEq] at h
    subst h
    rfl

theorem text_run (evs : List Event) :
    ∀ (s s1 : State), run s evs = some s1 → noTranscription s evs = true →
      s1.lastTranscription = s.lastTranscription := by
  induction evs with
  | nil =>
    intro s s1 h _
    simp only [run, Option.some.injEq] at h
    subst h; rfl
  | cons e es ih =>
    intro s s1 h hq
    simp only [run] at h
    cases hstep : step s e with
    | none => simp [hstep] at h
    | some s2 =>
      simp only [hstep] at h
      simp only [noTranscription, hstep, Bool.and_eq_true, Bool.not_eq_true'] at hq
      rw [ih s2 s1 h hq.2]
      exact text_step s s2 e hstep hq.1

/-- C14: for every response whose `success` is `true` and whose `transcription` is a
non-empty string `t`, `transcribePracticeAudio` stores `t` in
`practiceTranscriptionText`, shows the transcription, hides the coaching feedback and
publishes nothing; after any tasks that settle no other transcription, `getCoaching`
sends exactly one request, to `/practice_session`, with input `t` and the practice
type, topic and level current at that moment. -/
theorem C14_coaching_sends_last_transcription (s s1 : State) (result : JsVal) (t : String)
    (evs : List Event) (hs : result.field "success" = JsVal.bool true)
    (ht : result.field "transcription" = JsVal.str t) (hne : t ≠ "")
    (hrun : run (transcribePracticeAudioResume (Response.json result) s) evs = some s1)
    (hq : noTranscription (transcribePracticeAudioResume (Response.json result) s) evs = true) :
    (transcribePracticeAudioResume (Response.json result) s).dom.practiceTranscriptionText = t ∧
    (transcribePracticeAudioResume (Response.json result) s).dom.practiceTranscriptionHidden
      = false ∧
    (transcribePracticeAudioResume (Response.json result) s).dom.coachingFeedbackHidden = true ∧
    (transcribePracticeAudioResume (Response.json result) s).toasts = s.toasts ∧
    (getCoaching s1).requests = s1.requests ++
      [Request.practiceSession s1.currentPracticeType s1.dom.practiceTopic t
        s1.dom.practiceLevel] ∧
    (getCoaching s1).pendingFetch = s1.pendingFetch ++ [Operation.getCoaching] := by
  have hnn : result.isNullish = false := by
    cases result <;> simp [JsVal.field, JsVal.isNullish] at hs ⊢
  have key : transcribePracticeAudioResume (Response.json result) s
      = { hideLoading s with dom := { (hideLoading s).dom with
            practiceTranscriptionText := t
            practiceTranscriptionHidden := false
            coachingFeedbackHidden := true } } := by
    simp [transcribePracticeAudioResume, transcribePracticeAudioTry, hnn, hs, ht,
      JsVal.truthy, textContentOf, JsVal.toStr,
      show (JsVal.str t).isNullish = false from rfl]
  have htext : s1.dom.practiceTranscriptionText = t := by
    have h := text_run evs _ s1 hrun hq
    rw [key] at h
    exact h
  refine ⟨by rw [key], by rw [key], by rw [key], by rw [key]; rfl, ?_, ?_⟩
  · simp [getCoaching, htext, hne, showLoading]
  · simp [getCoaching, htext, hne, showLoading]

/-- C14 (witness): the statement for the transcription `I get up at seven` arriving in
`practiceArmedExample`, followed by a change of level and topic. -/
theorem C14_coaching_sends_last_transcription_witness :
    transcribedExample.dom.practiceTranscriptionText = "I get up at seven" ∧
    transcribedExample.dom.practiceTranscriptionHidden = false ∧
    transcribedExample.dom.coachingFeedbackHidden = true ∧
    transcribedExample.toasts = practiceArmedExample.toasts ∧
    (getCoaching retunedExample).requests = retunedExample.requests ++
      [Request.practiceSession retunedExample.currentPracticeType
        retunedExample.dom.practiceTopic "I get up at seven" retunedExample.dom.practiceLevel] ∧
    (getCoaching retunedExample).pendingFetch
      = retunedExample.pendingFetch ++ [Operation.getCoaching] :=
  C14_coaching_sends_last_transcription practiceArmedExample retunedExample
    (transcriptionBody "I get up at seven") "I get up at seven" retuningEvents
    rfl rfl (by decide) (by decide) (by decide)

/-! ### Tickers -/

theorem padStart2_length (t : String) : 2 ≤ (padStart2 t).length := by
  unfold padStart2
  split
  · rename_i h
    rw [String.length_append]
    have : (String.mk (List.replicate (2 - t.length) '0')).length = 2 - t.length := by
      show (List.replicate (2 - t.length) '0').length = 2 - t.length
      exact List.length_replicate _ _
    omega
  · omega

theorem ticks_practice (n : Nat) :
    ∀ (st : State) (id : Nat) (iv : Interval), st.intervals[id]? = some iv →
      iv.active = true → iv.ticker = Ticker.practice →
      (ticks id (n + 1) st).map (fun s1 => s1.dom.practiceTimerText)
        = some (practiceTimerDisplay (iv.seconds + n + 1)) := by
  induction n with
  | zero =>
    intro st id iv hiv ha ht
    simp [ticks, step, hiv, ha, ht, practiceTimerTick, practiceTimerDisplay]
  | succ n ih =>
    intro st id iv hiv ha ht
    have hlt : id < st.intervals.length := by
      rcases List.getElem?_eq_some_iff.mp hiv with ⟨h1, _⟩; exact h1
    have hstep : step st (Event.intervalFired id) = some (practiceTimerTick id iv st) := by
      simp [step, hiv, ha, ht]
    have hnext : (practiceTimerTick id iv st).intervals[id]?
        = some { iv with seconds := iv.seconds + 1 } := by
      simp only [practiceTimerTick]
      exact List.getElem?_set_self hlt
    have h := ih (practiceTimerTick id iv st) id { iv with seconds := iv.seconds + 1 } hnext ha ht
    have hunf : ticks id (n + 1 + 1) st = ticks id (n + 1) (practiceTimerTick id iv st) := by
      rw [ticks, hstep]
    rw [hunf, h]
    congr 2
    show iv.seconds + 1 + n + 1 = iv.seconds + (n + 1) + 1
    omega

theorem toDigitsCore_length_ge (b f : Nat) :
    ∀ (n : Nat) (ds : List Char), ds.length ≤ (Nat.toDigitsCore b f n ds).length := by
  induction f with
  | zero => intro n ds; simp [Nat.toDigitsCore]
  | succ f ih =>
    intro n ds
    simp only [Nat.toDigitsCore]
    split
    · simp
    · exact Nat.le_trans (by simp) (ih _ _)

theorem toString_length_lt_ten (n : Nat) (h : n < 10) : (toString n).length = 1 := by
  have hdiv : n / 10 = 0 := by omega
  show (Nat.repr n).length = 1
  simp [Nat.repr, Nat.toDigits, Nat.toDigitsCore, hdiv, String.length, List.asString]

theorem toString_length_ge_ten (n : Nat) (h : 10 ≤ n) : 2 ≤ (toString n).length := by
  have hdiv : n / 10 ≠ 0 := by omega
  show 2 ≤ (Nat.repr n).length
  simp only [Nat.repr, Nat.toDigits, Nat.toDigitsCore, hdiv, if_false, String.length,
    List.asString]
  have := toDigitsCore_length_ge 10 n (n / 10) [Nat.digitChar (n % 10)]
  obtain ⟨m, rfl⟩ : ∃ m, n = m + 1 := ⟨n - 1, by omega⟩
  simp only [Nat.toDigitsCore] at this ⊢
  split
  · simp
  · exact Nat.le_trans (by simp) (toDigitsCore_length_ge 10 m _ _)

theorem padStart2_toString (n : Nat) : padStart2 (toString n) = twoDigits n := by
  unfold padStart2 twoDigits
  by_cases h : n < 10
  · have hl := toString_length_lt_ten n h
    simp only [hl, h, if_true, show (1 : Nat) < 2 by decide]
    rfl
  · have hl := toString_length_ge_ten n (by omega)
    have : ¬ (toString n).length < 2 := by omega
    simp only [this, h, if_false]

theorem twoDigits_lt_hundred (n : Nat) (h : n < 100) :
    twoDigits n = String.mk [Nat.digitChar (n / 10), Nat.digitChar (n % 10)] := by
  interval_cases n <;> rfl

/-- C15: for every `s` and every elapsed time `e` (ms) with
`1000 * s ≤ e < 1000 * s + 1000`, the text the assessment ticker writes for `e`
equals the text the practice ticker writes when its counter is `s`.  Both are the
minutes and the seconds, each zero-padded to at least two digits (`twoDigits`), with
a colon in between: below 100 minutes the text is the five characters tens and units
of the minutes, colon, tens and units of the seconds, and from 10 minutes on the
minutes are printed in full.  The seconds fields are below 60 and minutes and seconds
add up to `s`; the assessment callback writes that text when the clock is `e` past
`recordingStartTime`, and the practice callback after `s` ticks of a ticker started
by `startPracticeTimer`.  At 75 s the text is `01:15`, at 5 s `00:05`, at 6005 s
`100:05`. -/
theorem C15_tickers_agree (s e : Nat) (hlo : 1000 * s ≤ e) (hhi : e < 1000 * s + 1000) :
    recordingTimerDisplay e = practiceTimerDisplay s ∧
    recordingTimerDisplay e
      = twoDigits (e / 60000) ++ ":" ++ twoDigits ((e % 60000) / 1000) ∧
    practiceTimerDisplay s = twoDigits (s / 60) ++ ":" ++ twoDigits (s % 60) ∧
    (s < 6000 → practiceTimerDisplay s
      = String.mk [Nat.digitChar (s / 60 / 10), Nat.digitChar (s / 60 % 10), ':',
          Nat.digitChar (s % 60 / 10), Nat.digitChar (s % 60 % 10)]) ∧
    (600 ≤ s → practiceTimerDisplay s
      = toString (s / 60) ++ ":" ++
          String.mk [Nat.digitChar (s % 60 / 10), Nat.digitChar (s % 60 % 10)]) ∧
    (e % 60000) / 1000 < 60 ∧ s % 60 < 60 ∧
    60 * (e / 60000) + (e % 60000) / 1000 = s ∧
    60 * (s / 60) + s % 60 = s ∧
    2 ≤ (padStart2 (toString (e / 60000))).length ∧
    2 ≤ (padStart2 (toString ((e % 60000) / 1000))).length ∧
    (∀ st : State, st.now - st.recordingStartTime.getD 0 = e →
      (recordingTimerTick st).dom.recordingTimerText = recordingTimerDisplay e) ∧
    (∀ st : State, 0 < s →
      (ticks st.intervals.length s (startPracticeTimer st)).map
        (fun s1 => s1.dom.practiceTimerText) = some (practiceTimerDisplay s)) ∧
    recordingTimerDisplay 75500 = "01:15" ∧ practiceTimerDisplay 75 = "01:15" ∧
    recordingTimerDisplay 5999 = "00:05" ∧ practiceTimerDisplay 5 = "00:05" ∧
    recordingTimerDisplay 6005999 = "100:05" ∧ practiceTimerDisplay 6005 = "100:05" := by
  have h1 : e / 60000 = s / 60 := by omega
  have h2 : (e % 60000) / 1000 = s % 60 := by omega
  have hp : practiceTimerDisplay s = twoDigits (s / 60) ++ ":" ++ twoDigits (s % 60) := by
    simp only [practiceTimerDisplay, padStart2_toString]
  have hsec := twoDigits_lt_hundred (s % 60) (by omega)
  refine ⟨?_, ?_, hp, ?_, ?_, by omega, by omega, by omega, by omega, padStart2_length _,
    padStart2_length _, ?_, ?_, by decide, by decide, by decide, by decide, by decide, by decide⟩
  · simp only [recordingTimerDisplay, practiceTimerDisplay, h1, h2]
  · simp only [recordingTimerDisplay, padStart2_toString]
  · intro hs
    rw [hp, hsec, twoDigits_lt_hundred (s / 60) (by omega)]
    rfl
  · intro hs
    have hm : ¬ s / 60 < 10 := by omega
    rw [hp, hsec]
    simp only [twoDigits, hm, if_false]
  · intro st hst
    simp only [recordingTimerTick, recordingTimerDisplay, hst]
  · intro st hs
    obtain ⟨n, rfl⟩ : ∃ n, s = n + 1 := ⟨s - 1, by omega⟩
    have h := ticks_practice n (startPracticeTimer st) st.intervals.length
      (Interval.mk Ticker.practice true 0) (by simp [startPracticeTimer]) rfl rfl
    simpa using h

/-- C15 (witness): the statement at 75 seconds, 75500 ms: both tickers write
`01:15` on the page. -/
theorem C15_tickers_agree_witness :
    1000 * 75 ≤ 75500 ∧ 75500 < 1000 * 75 + 1000 ∧
    recordingTimerDisplay 75500 = practiceTimerDisplay 75 ∧
    practiceTimerDisplay 75 = "01:15" ∧
    (recordingTimerTick
      { init blankPage 75500 with recordingStartTime := some 0 }).dom.recordingTimerText
        = "01:15" ∧
    (ticks 0 75 (startPracticeTimer (init blankPage 0))).map (fun s1 => s1.dom.practiceTimerText)
      = some "01:15" := by
  obtain ⟨h1, _, _, h4, _, _, _, _, _, _, _, ha, hb, _⟩ :=
    C15_tickers_agree 75 75500 (by decide) (by decide)
  refine ⟨by decide, by decide, h1, h4 (by decide), ?_, ?_⟩
  · exact (ha { init blankPage 75500 with recordingStartTime := some 0 } (by decide)).trans
      (h1.trans (h4 (by decide)))
  · exact (hb (init blankPage 0) (by decide)).trans (congrArg some (h4 (by decide)))

/-- C16 (failing input): after `deniedPracticeEvents`, where the microphone is refused
to `startPracticeRecording`, the session is idle with `audioChunks` and
`mediaRecorder` unchanged and exactly one new notification, the error
`Failed to start recording`; but the practice ticker is running (`practiceTimer` set)
and the button shows `Stop Recording`.  It is so from every state; the assessment
path `startRecording` starts no ticker and changes nothing on the page when
refused. -/
theorem C16_ticker_started_after_denial :
    (run (init blankPage 0) (deniedPracticeEvents.take 5)).map
        (fun s => (s.isRecording, s.audioChunks, s.mediaRecorder, s.toasts.length))
      = some (false, [], none, 1) ∧
    (run (init blankPage 0) deniedPracticeEvents).map
        (fun s => (s.isRecording, s.audioChunks, s.mediaRecorder, s.toasts.drop 1))
      = some (false, [], none, [Toast.mk "Failed to start recording" ToastType.error]) ∧
    (run (init blankPage 0) deniedPracticeEvents).map
        (fun s => (tickerRunning s, s.practiceTimer, s.dom.practiceRecordBtnStop,
          s.dom.practiceRecordingStatusHidden))
      = some (true, some 0, true, false) ∧
    (∀ s : State,
      (togglePracticeRecordingResume false s).isRecording = s.isRecording ∧
      (togglePracticeRecordingResume false s).audioChunks = s.audioChunks ∧
      (togglePracticeRecordingResume false s).mediaRecorder = s.mediaRecorder ∧
      (togglePracticeRecordingResume false s).toasts
        = s.toasts ++ [Toast.mk "Failed to start recording" ToastType.error] ∧
      tickerRunning (togglePracticeRecordingResume false s) = true ∧
      (togglePracticeRecordingResume false s).dom.practiceRecordBtnStop = true ∧
      (startRecordingResume false s).intervals = s.intervals ∧
      (startRecordingResume false s).dom = s.dom) := by
  refine ⟨by decide, by decide, by decide, ?_⟩
  intro s
  refine ⟨rfl, rfl, rfl, rfl, ?_, rfl, rfl, rfl⟩
  simp [tickerRunning, togglePracticeRecordingResume, startPracticeTimer,
    startPracticeRecordingResume, showToast]

end EnglishFluencyCoach
